import Mathlib

/-!
Verification of the HaD_i3d-tools chunk explorer core.

This file is a shallow embedding of the 3DS/I3D chunk subsystem of the
repository: the chunk tree parser (`ChunkParser.parse_chunk` / `parse`,
identical in all three source files), the payload-type heuristic
(`guess_payload_type`, in both its experimental seven-label form and its
GUI five-label form), the unknown-chunk registry
(`register_unknown` / `populate_runtime_unknowns`, experimental variant),
and the GUI payload decoder (`ChunkDecoder.decode`, the three-argument
variant from src/tools/gui/i3d_explorer.py).

Modelling conventions:
* A byte buffer is a `List Nat` of values < 256 (the parser and decoder
  never depend on the bound, so it is not enforced).
* Python slice reads `b[o:o+k]` clamp at the end of the buffer; this is
  mirrored by `sliceBytes` / `byteAt` with default 0, matching
  `int.from_bytes` of a short slice.
* `struct.unpack("<f", ...)` raises `struct.error` exactly when the slice
  has fewer than 4 bytes; IEEE-754 interpretation of a full 4-byte slice
  never fails and is a bijection on the 4 raw bytes, so a float value is
  represented by its 4 raw bytes and rendered by an abstract formatter.
  No claim in this development depends on a float's decimal rendering.
* Python's `good / len(data) > 0.85` is modelled by the exact rational
  comparison `100 * good > 85 * len`.  (The float constant `0.85` rounds
  to a double about 4.4e-17 above 17/20, and a quotient of naturals with
  denominator below 2^50 can land strictly between the two bounds only
  for buffers vastly larger than any addressable file, so the two
  comparisons agree on every realizable payload.)
* Recursion in the parser is driven by an explicit fuel that decreases on
  every call; `fuelEnough` below proves that `span + 2` fuel always
  suffices, which is the formal counterpart of termination of the Python
  recursion.
-/

namespace I3D

/-! ### Byte-level helpers -/

/-- Python slice `data[a:b]` (clamping at both ends, empty when `b ≤ a`). -/
def sliceBytes (data : List Nat) (a b : Nat) : List Nat :=
  (data.take b).drop a

/-- `data[i]` as used after an in-bounds check; out-of-range reads give 0,
which matches `int.from_bytes` of a slice that is missing this byte. -/
def byteAt (data : List Nat) (i : Nat) : Nat :=
  data.getD i 0

/-- Little-endian 16-bit read, `int.from_bytes(b[o:o+2], "little")`:
a short or empty slice contributes zeros. -/
def u16 (b : List Nat) (o : Nat) : Nat :=
  byteAt b o + 256 * byteAt b (o + 1)

/-- Little-endian 32-bit read, `int.from_bytes(b[o:o+4], "little")`. -/
def u32 (b : List Nat) (o : Nat) : Nat :=
  byteAt b o + 256 * byteAt b (o + 1) + 65536 * byteAt b (o + 2) +
    16777216 * byteAt b (o + 3)

/-! ### The chunk tree -/

mutual
/-- `ChunkNode(cid, start, size, children)` from the source; the `parent`
back-reference is not stored (it is recovered from the position of a node
inside its parent's `children`). -/
inductive ChunkNode where
  | mk (cid start size : Nat) (children : ChunkList)
  deriving DecidableEq, Repr

/-- The ordered `children` list of a `ChunkNode`. -/
inductive ChunkList where
  | nil
  | cons (head : ChunkNode) (tail : ChunkList)
  deriving DecidableEq, Repr
end

namespace ChunkNode

def cid : ChunkNode → Nat
  | .mk c _ _ _ => c

def start : ChunkNode → Nat
  | .mk _ s _ _ => s

def size : ChunkNode → Nat
  | .mk _ _ z _ => z

def children : ChunkNode → ChunkList
  | .mk _ _ _ cs => cs

/-- `payload_start = start + 6`. -/
def payload_start (n : ChunkNode) : Nat := n.start + 6

/-- `payload_end = start + size`. -/
def payload_end (n : ChunkNode) : Nat := n.start + n.size

/-- `payload_size = max(0, size - 6)` (truncated subtraction on Nat). -/
def payload_size (n : ChunkNode) : Nat := n.size - 6

end ChunkNode

namespace ChunkList

/-- Plain list of the nodes, for stating properties with `List` vocabulary. -/
def toList : ChunkList → List ChunkNode
  | .nil => []
  | .cons n rest => n :: rest.toList

end ChunkList

/-! ### The parser

`ChunkParser.parse_chunk(offset, file_end, parent)` and the
repeat-until-exhausted child loop are mutually recursive; the embedding
makes the recursion structural on an explicit fuel so that every value
computes by kernel reduction.  `none` means the fuel ran out (never the
case for the fuel used by `parse`, see `fuelEnough`). -/

/-- The set of container chunk ids of `parse_chunk`'s second special case
(identical in all three source files). -/
def containerIds : List Nat :=
  [0x4D4D, 0x3D3D, 0x4100, 0xAFFF, 0xA200,
   0xB000, 0xB002, 0xB003, 0xB004, 0xB005, 0xB006, 0xB007, 0xB010]

/-- The zero-terminator scan of the named-object case:
`while pos < pend and data[pos] != 0: pos += 1`, driven by the remaining
distance so that it is structural. -/
def scanZeroAux (data : List Nat) : Nat → Nat → Nat
  | pos, 0 => pos
  | pos, k + 1 => if byteAt data pos ≠ 0 then scanZeroAux data (pos + 1) k else pos

def scanZero (data : List Nat) (pos pend : Nat) : Nat :=
  scanZeroAux data pos (pend - pos)

/-- Position of the first child of a named-object payload: the scan above
followed by `if pos < pend: pos += 1` (skip the terminator). -/
def skipName (data : List Nat) (pstart pend : Nat) : Nat :=
  if scanZero data pstart pend < pend then scanZero data pstart pend + 1
  else scanZero data pstart pend

/-- Where `parse_chunk` starts its child loop inside a node's payload. -/
def childStart (data : List Nat) (cid pstart pend : Nat) : Nat :=
  if cid = 0x4000 then skipName data pstart pend else pstart

/-- One level of the mutual recursion of `parse_chunk`; `pcs` is the child
loop at the next lower fuel.  The chunk id is `u16 data off` and the
declared length is `u32 data (off + 2)`; the two special cases (named
object `0x4000` with its name skip, and the container set) share the child
loop through `childStart`. -/
def parseChunkBody
    (pcs : List Nat → Nat → Nat → Option ChunkList)
    (data : List Nat) (off fend : Nat) : Option (Option ChunkNode × Nat) :=
  if off + 6 > fend then some (none, off)
  else if off + 6 > data.length then
    -- struct.unpack_from raised; caught by the try/except, returning (None, fend)
    some (none, fend)
  else if u32 data (off + 2) < 6 ∨ off + u32 data (off + 2) > fend then
    some (none, fend)
  else if u16 data off = 0x4000 ∨ u16 data off ∈ containerIds then
    match pcs data (childStart data (u16 data off) (off + 6) (off + u32 data (off + 2)))
        (off + u32 data (off + 2)) with
    | none => none
    | some cs =>
      some (some (ChunkNode.mk (u16 data off) off (u32 data (off + 2)) cs),
        off + u32 data (off + 2))
  else
    some (some (ChunkNode.mk (u16 data off) off (u32 data (off + 2)) ChunkList.nil),
      off + u32 data (off + 2))

/-- One level of the child loop
`while pos + 6 <= pend: child, nxt = parse_chunk(pos, pend, node); ...`;
`pc` and `pcs` are `parse_chunk` and the loop at the next lower fuel.
A node returned together with a non-advancing offset has already been
attached by `add_child`, hence is kept before the loop breaks. -/
def parseChildrenBody
    (pc : List Nat → Nat → Nat → Option (Option ChunkNode × Nat))
    (pcs : List Nat → Nat → Nat → Option ChunkList)
    (data : List Nat) (pos pend : Nat) : Option ChunkList :=
  if pos + 6 ≤ pend then
    match pc data pos pend with
    | none => none
    | some (none, _) => some ChunkList.nil
    | some (some child, nxt) =>
      if nxt ≤ pos then some (ChunkList.cons child ChunkList.nil)
      else
        match pcs data nxt pend with
        | none => none
        | some rest => some (ChunkList.cons child rest)
  else some ChunkList.nil

/-- The fuel-indexed pair (`parse_chunk`, child loop). -/
def parsePair :
    Nat → (List Nat → Nat → Nat → Option (Option ChunkNode × Nat)) ×
          (List Nat → Nat → Nat → Option ChunkList)
  | 0 => (fun _ _ _ => none, fun _ _ _ => none)
  | fuel + 1 =>
    let p := parsePair fuel
    (parseChunkBody p.2, parseChildrenBody p.1 p.2)

/-- `ChunkParser.parse_chunk(offset, file_end, parent)` (functionally: the
node it would attach to the parent, if any, and the next offset). -/
def parse_chunk (fuel : Nat) (data : List Nat) (off fend : Nat) :
    Option (Option ChunkNode × Nat) :=
  (parsePair fuel).1 data off fend

/-- The repeat-until-exhausted child loop of `parse_chunk` and `parse`
(functionally: the list of children it appends to the supplied parent). -/
def parseChildren (fuel : Nat) (data : List Nat) (pos pend : Nat) :
    Option ChunkList :=
  (parsePair fuel).2 data pos pend

/-- `ChunkParser.parse`: synthetic root `ChunkNode(0xFFFF, 0, len(data))`
with the top-level child loop over the whole buffer.  The fuel
`data.length + 2` always suffices (`fuelEnough`), so the `none` fallback
below is dead code. -/
def parse (data : List Nat) : ChunkNode :=
  match parseChildren (data.length + 2) data 0 data.length with
  | some cs => ChunkNode.mk 0xFFFF 0 data.length cs
  | none => ChunkNode.mk 0xFFFF 0 data.length ChunkList.nil

/-! ### Structural invariants of parsed trees -/

/-- `chainB pos cs pend`: the sibling chain `cs` starts at or after `pos`,
each span `[start, start+size)` ends inside `pend`, and each next sibling
starts at or after the previous one's end (so spans are pairwise disjoint
and starts strictly increase as soon as sizes are positive). -/
def chainB (pos : Nat) (cs : ChunkList) (pend : Nat) : Bool :=
  match cs with
  | .nil => true
  | .cons c rest =>
    (decide (pos ≤ c.start) && decide (c.start + c.size ≤ pend)) &&
      chainB (c.start + c.size) rest pend

/-- Recursive well-formedness of a children list: every node has
`size ≥ 6` and its own children form a chain inside its payload span,
starting at `childStart` (after the name skip for named objects). -/
def listOkB (data : List Nat) : ChunkList → Bool
  | .nil => true
  | .cons (.mk cid st sz ch) rest =>
    (decide (6 ≤ sz) && chainB (childStart data cid (st + 6) (st + sz)) ch (st + sz) &&
      listOkB data ch) && listOkB data rest

/-- Every node of every subtree has `size ≥ 6`. -/
def sizesAllB : ChunkList → Bool
  | .nil => true
  | .cons (.mk _ _ sz ch) rest => decide (6 ≤ sz) && sizesAllB ch && sizesAllB rest

/-- The containment predicate exactly as claim C3 words it: every child's
`[start, start+size)` lies within its parent's payload span
`[parent.start+6, parent.start+parent.size)`, for every parent in the
tree including the synthetic root. -/
def childrenWithinB (a b : Nat) : ChunkList → Bool
  | .nil => true
  | .cons (.mk _ cst csz cch) rest =>
    (decide (a ≤ cst) && decide (cst + csz ≤ b)) &&
      childrenWithinB (cst + 6) (cst + csz) cch && childrenWithinB a b rest

/-- Claim C3's containment reading applied to a whole tree rooted at `n`. -/
def treeContainedClaim (n : ChunkNode) : Bool :=
  childrenWithinB n.payload_start n.payload_end n.children

/-- Size measure used for induction over the nested children structure. -/
def csize : ChunkList → Nat
  | .nil => 0
  | .cons (.mk _ _ _ ch) rest => 1 + csize ch + csize rest

/-! ### Payload heuristic

The experimental variant (`src/experimental/i3d_explorer.py`) has all
seven labels; the GUI variant (`src/tools/gui/i3d_explorer.py`, namespace
`GUI` below) lacks the Matrix3x4/Vector3 stages.  `struct.unpack` of a
slice of exactly the required byte count cannot fail, so the
"parseable as floats" conditions of `looks_matrix3x4` / `looks_vector3` /
`looks_float_array` reduce to pure length conditions. -/

/-- `32 <= b <= 126 or b in (9, 10, 13)`. -/
def printableByte (b : Nat) : Bool :=
  (32 ≤ b && b ≤ 126) || b == 9 || b == 10 || b == 13

/-- `sum(1 for b in data if 32 <= b <= 126 or b in (9, 10, 13))`. -/
def goodCount (data : List Nat) : Nat :=
  data.countP printableByte

/-- `good / len(data) > 0.85`, as the exact comparison
`100 * good > 85 * len` (see the header notes). -/
def looks_ascii (data : List Nat) : Bool :=
  if data.isEmpty then false
  else decide (100 * goodCount data > 85 * data.length)

/-- Exactly 12 bytes; `struct.unpack("<3f", data)` then always succeeds. -/
def looks_vector3 (data : List Nat) : Bool :=
  data.length == 12

/-- Exactly 48 bytes; `struct.unpack("<12f", data)` then always succeeds. -/
def looks_matrix3x4 (data : List Nat) : Bool :=
  data.length == 48

/-- At least 4 bytes and a multiple of 4; `struct.unpack("<f", data[:4])`
then always succeeds. -/
def looks_float_array (data : List Nat) : Bool :=
  decide (4 ≤ data.length) && data.length % 4 == 0

/-- `len(data) >= 2 and len(data) % 2 == 0`. -/
def looks_u16_array (data : List Nat) : Bool :=
  decide (2 ≤ data.length) && data.length % 2 == 0

/-- Experimental `guess_payload_type` (seven labels, documented order). -/
def guess_payload_type (data : List Nat) : String :=
  if data.isEmpty then "Empty"
  else if looks_ascii data then "ASCII"
  else if looks_matrix3x4 data then "Matrix3x4"
  else if looks_vector3 data then "Vector3"
  else if looks_float_array data then "Float array"
  else if looks_u16_array data then "UInt16 array"
  else "Binary"

namespace GUI

/-- GUI `looks_ascii` (textually identical to the experimental one). -/
def looks_ascii (data : List Nat) : Bool :=
  if data.isEmpty then false
  else decide (100 * goodCount data > 85 * data.length)

/-- GUI `guess_payload_type`: only five labels.  At the `% 4` stage the
buffer is nonempty, so it has at least 4 bytes and the guarded
`struct.unpack("<f", data[:4])` always succeeds (the `except: pass` arm is
dead). -/
def guess_payload_type (data : List Nat) : String :=
  if data.isEmpty then "Empty"
  else if looks_ascii data then "ASCII"
  else if data.length % 4 == 0 then "Float array"
  else if data.length % 2 == 0 then "UInt16 array"
  else "Binary"

end GUI

/-! ### Chunk name tables (identical key sets in both explorer variants) -/

def CHUNK_NAMES_3DS : List (Nat × String) :=
  [(0x4D4D, "Main"), (0x3D3D, "Editor"), (0x0000, "Null"), (0x0002, "M3D Version"),
   (0x0010, "RGB Float"), (0x0011, "RGB 24"), (0x0012, "Linear Color 24"),
   (0x0013, "Linear Color Float"), (0x0030, "Int Percentage"),
   (0x0031, "Float Percentage"), (0x0100, "Master Scale"),
   (0x4000, "Named Object"), (0x4010, "Object Hidden"), (0x4016, "Object Frozen"),
   (0x4100, "Tri Mesh"), (0x4110, "Vertex List"), (0x4111, "Vertex Selection"),
   (0x4120, "Face List"), (0x4130, "Face Material"), (0x4140, "Mapping Coordinates"),
   (0x4150, "Smoothing Group List"), (0x4160, "Transform Matrix"),
   (0x4165, "Mesh Color"),
   (0x4600, "Light"), (0x4610, "Spotlight"), (0x4620, "Light Off"),
   (0x4625, "Spotlight Range"),
   (0x4700, "Camera"), (0x4720, "Camera Ranges"),
   (0xAFFF, "Material"), (0xA000, "Material Name"), (0xA010, "Material Ambient"),
   (0xA020, "Material Diffuse"), (0xA030, "Material Specular"),
   (0xA040, "Material Shininess"), (0xA041, "Material Shin Strength"),
   (0xA050, "Material Transparency"),
   (0xA081, "Material Two Sided"), (0xA084, "Material Self Illumination Percent"),
   (0xA085, "Material Wire"), (0xA087, "Material Wire Size"),
   (0xA08A, "Material XPFall-In"), (0xA08C, "Material Phong Softness"),
   (0xA100, "Material Shading"), (0xA200, "Material Texture"),
   (0xA204, "Material Specular Map"), (0xA210, "Material Opacity Map"),
   (0xA220, "Material Reflection Map"), (0xA230, "Material Bump Map"),
   (0xA300, "Material Map File"),
   (0xA351, "Material Map Params"), (0xA353, "Material Map TexBlur"),
   (0xB000, "Keyframer"), (0xB002, "Object Node Tag"), (0xB003, "Camera Node Tag"),
   (0xB004, "Target Node Tag"), (0xB005, "Light Node Tag"),
   (0xB006, "Light Target Node Tag"), (0xB007, "Spotlight Node Tag"),
   (0xB008, "Frame Segment"), (0xB009, "Current Time"), (0xB00A, "Keyframe Header"),
   (0xB00B, "Object Info"), (0xB00E, "Bone Node"), (0xB010, "Node Header"),
   (0xB011, "Instance Name"), (0xB013, "Pivot"), (0xB014, "Bounding Box"),
   (0xB020, "Position Track Tag"), (0xB021, "Rotation Track Tag"),
   (0xB022, "Scale Track Tag"), (0xB023, "FOV Track Tag"),
   (0xB024, "Roll Track Tag"), (0xB025, "Color Track Tag"),
   (0xB027, "Hot Spot Track Tag"), (0xB028, "Fall Track Tag"),
   (0xB029, "Hide Track Tag"), (0xB02A, "Note Track Tag"), (0xB030, "Node ID")]

/-- The I3D extension table after the friendly-name rebuild: in both
variants its sole entry is `0x4200 : "Map Channel"` (the experimental
variant stores `"CHUNK_MAP_CHANNEL"` first, then rewrites it through
`friendly_name`, yielding the same value the GUI variant hardcodes). -/
def CHUNK_NAMES_I3D : List (Nat × String) :=
  [(0x4200, "Map Channel")]

def keys3DS : List Nat := CHUNK_NAMES_3DS.map Prod.fst

def keysI3D : List Nat := CHUNK_NAMES_I3D.map Prod.fst

/-! ### Unknown-chunk registry (experimental variant) -/

/-- One registry entry of `unknown_chunks`; `parents` is a Python `set`,
modelled as a duplicate-free insertion-ordered list (claims only ever use
membership). -/
structure UEntry where
  count : Nat
  parents : List Nat
  sizes : List Nat
  samples : List (List Nat)
  guesses : List String
  deriving DecidableEq, Repr

def emptyEntry : UEntry := ⟨0, [], [], [], []⟩

/-- Lookup in the insertion-ordered dict `unknown_chunks`. -/
def assocGet : List (Nat × UEntry) → Nat → Option UEntry
  | [], _ => none
  | (k, e) :: rest, cid => if k = cid then some e else assocGet rest cid

/-- In-place update (or append, as `dict.setdefault` does for a new key). -/
def assocSet : List (Nat × UEntry) → Nat → UEntry → List (Nat × UEntry)
  | [], cid, e => [(cid, e)]
  | (k, e0) :: rest, cid, e =>
    if k = cid then (k, e) :: rest else (k, e0) :: assocSet rest cid e

/-- The mutation `register_unknown` performs on one entry: increment
`count`, append the payload size and the guess, add the parent id when it
is truthy (`None` and `0` are both falsy), and append the 128-byte-capped
sample only while fewer than 3 samples are stored. -/
def applyOcc (pcid? : Option Nat) (payload : List Nat) (guess : String)
    (e : UEntry) : UEntry where
  count := e.count + 1
  parents :=
    match pcid? with
    | some p => if p ≠ 0 ∧ ¬ p ∈ e.parents then e.parents ++ [p] else e.parents
    | none => e.parents
  sizes := e.sizes ++ [payload.length]
  samples := if e.samples.length < 3 then e.samples ++ [payload.take 128] else e.samples
  guesses := e.guesses ++ [guess]

/-- `register_unknown(cid, parent_cid, payload, guess)` over the registry
value (the Python global dict threaded explicitly). -/
def register_unknown (cid : Nat) (pcid? : Option Nat) (payload : List Nat)
    (guess : String) (reg : List (Nat × UEntry)) : List (Nat × UEntry) :=
  assocSet reg cid (applyOcc pcid? payload guess ((assocGet reg cid).getD emptyEntry))

/-- The payload slice `data[n.payload_start:n.payload_end]`. -/
def payloadOf (data : List Nat) (n : ChunkNode) : List Nat :=
  sliceBytes data n.payload_start n.payload_end

/-- The recursive `walk` of `populate_runtime_unknowns` over a sibling
list: each node with a non-sentinel id is classified (and registered when
its id is in neither name table) before its children, children before the
following siblings; `pcid?` is `n.parent.cid if n.parent else None`. -/
def walkAll (data : List Nat) (pcid? : Option Nat) (reg : List (Nat × UEntry)) :
    ChunkList → List (Nat × UEntry)
  | .nil => reg
  | .cons (.mk cid st sz ch) rest =>
    walkAll data pcid?
      (walkAll data (some cid)
        (if cid ≠ 0xFFFF ∧ ¬ cid ∈ keys3DS ∧ ¬ cid ∈ keysI3D then
          register_unknown cid pcid? (sliceBytes data (st + 6) (st + sz))
            (guess_payload_type (sliceBytes data (st + 6) (st + sz))) reg
        else reg) ch) rest

/-- `populate_runtime_unknowns(root, data)`: clear the registry, then walk
the tree from the root (whose parent is `None`). -/
def populate_runtime_unknowns (root : ChunkNode) (data : List Nat) :
    List (Nat × UEntry) :=
  walkAll data none [] (ChunkList.cons root ChunkList.nil)

/-! ### Specification-side view of the registry (for claim C5)

`visits` lists the `(parent id, node)` pairs in the exact order `walk`
reaches them; the entry the registry ends up holding for an id is the fold
of `applyOcc` over that id's occurrences. -/

def visits (pcid? : Option Nat) : ChunkList → List (Option Nat × ChunkNode)
  | .nil => []
  | .cons (.mk cid st sz ch) rest =>
    (pcid?, ChunkNode.mk cid st sz ch) ::
      (visits (some cid) ch ++ visits pcid? rest)

/-- Is this id counted by the registry (not the sentinel, in neither
name table)? -/
def unknownId (cid : Nat) : Bool :=
  decide (cid ≠ 0xFFFF) && !(decide (cid ∈ keys3DS)) && !(decide (cid ∈ keysI3D))

/-- The occurrences of `id` in walk order below a sibling list. -/
def occsFor (id : Nat) (pcid? : Option Nat) (cs : ChunkList) :
    List (Option Nat × ChunkNode) :=
  (visits pcid? cs).filter (fun pn => pn.2.cid == id && unknownId pn.2.cid)

/-- The registry update caused by one visited occurrence. -/
def occStep (data : List Nat) (e : UEntry) (pn : Option Nat × ChunkNode) : UEntry :=
  applyOcc pn.1 (payloadOf data pn.2) (guess_payload_type (payloadOf data pn.2)) e

/-- The entry predicted for `id`: fold the per-occurrence update over the
fresh entry. -/
def entryFromOccs (data : List Nat) (os : List (Option Nat × ChunkNode)) : UEntry :=
  os.foldl (occStep data) emptyEntry

/-- Registry lookup with the fresh entry as default. -/
def getE (reg : List (Nat × UEntry)) (cid : Nat) : UEntry :=
  (assocGet reg cid).getD emptyEntry

/-! ### Formatting helpers for the decoder

Python integer formatting is mirrored exactly (`str(int)` and `%04X`);
float repr is abstracted: a float is carried as its 4 raw little-endian
bytes and rendered with a deterministic placeholder that records the
format style and the bytes (no claim depends on the decimal text). -/

def hexDigit (n : Nat) : Char :=
  if n < 10 then Char.ofNat (48 + n) else Char.ofNat (55 + n)

def hexCharsAux : Nat → Nat → List Char
  | 0, n => [hexDigit (n % 16)]
  | fuel + 1, n =>
    if n < 16 then [hexDigit n] else hexCharsAux fuel (n / 16) ++ [hexDigit (n % 16)]

/-- Uppercase hexadecimal digits of `n`, most significant first. -/
def hexChars (n : Nat) : List Char :=
  hexCharsAux n n

/-- Left-pad with zeros to width `w`. -/
def pad0 (w : Nat) (cs : List Char) : String :=
  String.mk (List.replicate (w - cs.length) '0' ++ cs)

/-- Python `f"0x{n:04X}"` without the `0x` part. -/
def hex4 (n : Nat) : String :=
  pad0 4 (hexChars n)

/-- Python `str` of a nonnegative integer. -/
def natStr (n : Nat) : String :=
  toString n

/-- One byte of an `.decode("ascii", "replace")` rendering. -/
def asciiChar (b : Nat) : Char :=
  if b ≤ 127 then Char.ofNat b else '�'

/-- Bytes before the first zero byte (`data.split(b"\x00")[0]`). -/
def takeToZero (bs : List Nat) : List Nat :=
  bs.takeWhile (fun b => b != 0)

/-- Null-terminated ASCII string with replacement decoding. -/
def asciiz (bs : List Nat) : String :=
  String.mk ((takeToZero bs).map asciiChar)

def bytesHex (bs : List Nat) : String :=
  String.intercalate " " (bs.map (fun b => pad0 2 (hexChars b)))

/-- Abstract rendering of a 4-byte float in format `style`. -/
def fmtF (style : String) (bs : List Nat) : String :=
  "f32[" ++ style ++ ":" ++ bytesHex bs ++ "]"

/-! ### The GUI `ChunkDecoder` -/

/-- The exceptions GUI `ChunkDecoder.decode` can raise:
`struct.error` from `f32` on a slice shorter than 4 bytes, and
`AttributeError` from `node.parent.children` when the parent is `None`. -/
inductive PyErr where
  | structError
  | attrError
  deriving DecidableEq, Repr

/-- `struct.unpack("<f", b[o:o+4])[0]`: the 4 raw bytes, or `struct.error`
when the clamped slice has fewer than 4 bytes. -/
def f32e (b : List Nat) (o : Nat) : Except PyErr (List Nat) :=
  if (sliceBytes b o (o + 4)).length = 4 then Except.ok (sliceBytes b o (o + 4))
  else Except.error PyErr.structError

/-- The 4 bytes read by `f32` at a call site protected by a length guard
(there `o + 4 ≤ len b`, so unpack cannot fail). -/
def f32v (b : List Nat) (o : Nat) : List Nat :=
  sliceBytes b o (o + 4)

/-- `({r:.4f}, {g:.4f}, {b:.4f})` of three guarded floats. -/
def tripleF (cp : List Nat) : String :=
  "(" ++ fmtF ".4f" (f32v cp 0) ++ ", " ++ fmtF ".4f" (f32v cp 4) ++ ", " ++
    fmtF ".4f" (f32v cp 8) ++ ")"

/-- `({cp[0]}, {cp[1]}, {cp[2]})` of three raw bytes. -/
def tripleB (cp : List Nat) : String :=
  "(" ++ natStr (byteAt cp 0) ++ ", " ++ natStr (byteAt cp 1) ++ ", " ++
    natStr (byteAt cp 2) ++ ")"

/-- One row of the 3x4 transform matrix (four `.4f` floats). -/
def mrow (data : List Nat) (o : Nat) : String :=
  fmtF ".4f" (f32v data o) ++ " " ++ fmtF ".4f" (f32v data (o + 4)) ++ " " ++
    fmtF ".4f" (f32v data (o + 8)) ++ " " ++ fmtF ".4f" (f32v data (o + 12))

/-- `names` of the material color branch (`0xA010/0xA020/0xA030`). -/
def colorName (cid : Nat) : String :=
  if cid = 0xA010 then "Ambient Color"
  else if cid = 0xA020 then "Diffuse Color"
  else "Specular Color"

/-- The `names` dict of the `0xA100` shading branch, with its
`names.get(mode, ...)` fallback. -/
def shadingName (m : Nat) : String :=
  if m = 0 then "Wireframe"
  else if m = 1 then "Flat"
  else if m = 2 then "Gouraud"
  else if m = 3 then "Phong"
  else if m = 4 then "Metal"
  else "Unknown (" ++ natStr m ++ ")"

/-- `names` of the texture-map branch (`0xA200` family). -/
def mapName (cid : Nat) : String :=
  if cid = 0xA200 then "Diffuse Texture Map"
  else if cid = 0xA204 then "Specular Map"
  else if cid = 0xA210 then "Opacity Map"
  else if cid = 0xA220 then "Reflection Map"
  else "Bump Map"

namespace GUI

/-- The `0x4110` vertex preview loop: at most `k = min(count, 20)`
records, breaking before a record that does not fit. -/
def vertexLines (data : List Nat) : Nat → Nat → Nat → List String
  | _, _, 0 => []
  | off, i, k + 1 =>
    if off + 12 > data.length then []
    else
      ("[" ++ natStr i ++ "] (" ++ fmtF ".4f" (f32v data off) ++ ", " ++
        fmtF ".4f" (f32v data (off + 4)) ++ ", " ++
        fmtF ".4f" (f32v data (off + 8)) ++ ")") ::
        vertexLines data (off + 12) (i + 1) k

/-- The `0x4120` face preview loop: no bounds check — `u16` of a short
slice yields zero-filled values, so the loop always emits
`min(count, 20)` lines. -/
def faceLines (data : List Nat) : Nat → Nat → Nat → List String
  | _, _, 0 => []
  | off, i, k + 1 =>
    ("[" ++ natStr i ++ "] (" ++ natStr (u16 data off) ++ ", " ++
      natStr (u16 data (off + 2)) ++ ", " ++ natStr (u16 data (off + 4)) ++
      ") flags=0x" ++ hex4 (u16 data (off + 6))) ::
      faceLines data (off + 8) (i + 1) k

/-- The `0x4140` UV preview loop: no bounds check — `f32` of a short
slice raises `struct.error`. -/
def uvLines (data : List Nat) : Nat → Nat → Nat → Except PyErr (List String)
  | _, _, 0 => Except.ok []
  | off, i, k + 1 => do
    let u ← f32e data off
    let v ← f32e data (off + 4)
    let rest ← uvLines data (off + 8) (i + 1) k
    Except.ok (("[" ++ natStr i ++ "] U=" ++ fmtF ".4f" u ++ ", V=" ++
      fmtF ".4f" v) :: rest)

/-- The `0x4200` UV loop (bounds-checked), returning the lines and the
offset where the loop stopped. -/
def mcUV (data : List Nat) : Nat → Nat → Nat → List String × Nat
  | off, _, 0 => ([], off)
  | off, i, k + 1 =>
    if off + 8 > data.length then ([], off)
    else
      (("[" ++ natStr i ++ "] U=" ++ fmtF ".4f" (f32v data off) ++ ", V=" ++
        fmtF ".4f" (f32v data (off + 4))) :: (mcUV data (off + 8) (i + 1) k).1,
        (mcUV data (off + 8) (i + 1) k).2)

/-- The `0x4200` UV-face loop (bounds-checked). -/
def mcFaces (data : List Nat) : Nat → Nat → Nat → List String
  | _, _, 0 => []
  | off, i, k + 1 =>
    if off + 6 > data.length then []
    else
      ("[" ++ natStr i ++ "] " ++ natStr (u16 data off) ++ ", " ++
        natStr (u16 data (off + 2)) ++ ", " ++ natStr (u16 data (off + 4))) ::
        mcFaces data (off + 6) (i + 1) k

/-- The `for child in node.children` scan of the color branch: the first
child bearing one of `0x0010/0x0011/0x0012/0x0013` with a sufficient
payload returns immediately. -/
def colorChildScan (full : List Nat) (name : String) : ChunkList → Option String
  | .nil => none
  | .cons child rest =>
    if child.cid = 0x0010 ∧ 12 ≤ (payloadOf full child).length then
      some (name ++ ": " ++ tripleF (payloadOf full child))
    else if child.cid = 0x0011 ∧ 3 ≤ (payloadOf full child).length then
      some (name ++ ": " ++ tripleB (payloadOf full child))
    else if child.cid = 0x0012 ∧ 3 ≤ (payloadOf full child).length then
      some (name ++ " (Linear): " ++ tripleB (payloadOf full child))
    else if child.cid = 0x0013 ∧ 12 ≤ (payloadOf full child).length then
      some (name ++ " (Linear): " ++ tripleF (payloadOf full child))
    else colorChildScan full name rest

/-- The `for sibling in node.parent.children` fallback scan of the color
branch: only `0x0011` and `0x0010` are accepted.  Python skips the node
itself by object identity; structural equality is used here, which is
observationally the same because any sibling structurally equal to the
node carries the container id and matches neither accepted id. -/
def colorSibScan (node : ChunkNode) (full : List Nat) (name : String) :
    ChunkList → Option String
  | .nil => none
  | .cons sib rest =>
    if sib = node then colorSibScan node full name rest
    else if sib.cid = 0x0011 ∧ 3 ≤ (payloadOf full sib).length then
      some (name ++ " (from parent): " ++ tripleB (payloadOf full sib))
    else if sib.cid = 0x0010 ∧ 12 ≤ (payloadOf full sib).length then
      some (name ++ " (from parent): " ++ tripleF (payloadOf full sib))
    else colorSibScan node full name rest

/-- The `for ch in node.children` scan of the percentage branches
(`0xA040/0xA041/0xA050/0xA084`): `0x0030` (int) or `0x0031` (float). -/
def pctChildScan (full : List Nat) (label : String) : ChunkList → Option String
  | .nil => none
  | .cons ch rest =>
    if ch.cid = 0x0030 ∧ 2 ≤ (payloadOf full ch).length then
      some (label ++ ": " ++ natStr (u16 (payloadOf full ch) 0) ++ "%")
    else if ch.cid = 0x0031 ∧ 4 ≤ (payloadOf full ch).length then
      some (label ++ ": " ++ fmtF "pct" (f32v (payloadOf full ch) 0) ++ "%")
    else pctChildScan full label rest

/-- The per-child summaries of the texture-map branch (`0xA200` family). -/
def mapChildLines (full : List Nat) : ChunkList → List String
  | .nil => []
  | .cons ch rest =>
    (if ch.cid = 0xA300 then
      ["  File: \"" ++ asciiz (payloadOf full ch) ++ "\""]
    else if ch.cid = 0x0030 ∧ 2 ≤ (payloadOf full ch).length then
      ["  Percent (int): " ++ natStr (u16 (payloadOf full ch) 0) ++ "%"]
    else if ch.cid = 0x0031 ∧ 4 ≤ (payloadOf full ch).length then
      ["  Percent (float): " ++ fmtF "pct" (f32v (payloadOf full ch) 0) ++ "%"]
    else if ch.cid = 0xA351 then
      if (payloadOf full ch).length < 32 then
        ["  Map Params (short: " ++ natStr (payloadOf full ch).length ++ " bytes)"]
      else
        ["  Map Params:",
         "    Scale=(" ++ fmtF ".4f" (f32v (payloadOf full ch) 0) ++ ", " ++
           fmtF ".4f" (f32v (payloadOf full ch) 4) ++ ")",
         "    Offset=(" ++ fmtF ".4f" (f32v (payloadOf full ch) 8) ++ ", " ++
           fmtF ".4f" (f32v (payloadOf full ch) 12) ++ ")",
         "    Rotation=" ++ fmtF ".4f" (f32v (payloadOf full ch) 16) ++ "°",
         "    Tiling=(" ++ fmtF ".4f" (f32v (payloadOf full ch) 20) ++ ", " ++
           fmtF ".4f" (f32v (payloadOf full ch) 24) ++ ")"]
    else if ch.cid = 0xA353 ∧ 4 ≤ (payloadOf full ch).length then
      ["  Blur: " ++ fmtF ".4f" (f32v (payloadOf full ch) 0)]
    else
      ["  Subchunk 0x" ++ hex4 ch.cid ++ " (" ++
        natStr (payloadOf full ch).length ++ " bytes)"]) ++
      mapChildLines full rest

/-- GUI `ChunkDecoder.decode(node, data, full_data)`.  `data` is the
node's payload slice as passed by `on_tree_select`; `parent?` models
`node.parent` (only the color branch reads it). -/
def ChunkDecoder.decode (node : ChunkNode) (parent? : Option ChunkNode)
    (data full_data : List Nat) : Except PyErr String :=
  if node.cid = 0x0000 then .ok "Null Chunk"
  else if node.cid = 0x0002 ∧ 2 ≤ data.length then
    .ok ("3DS Version: " ++ natStr (u16 data 0))
  else if node.cid = 0x0100 ∧ 4 ≤ data.length then
    .ok ("Master Scale: " ++ fmtF "repr" (f32v data 0))
  else if node.cid = 0x0010 ∧ 12 ≤ data.length then
    .ok ("RGB Float: " ++ tripleF data)
  else if node.cid = 0x0011 ∧ 3 ≤ data.length then
    .ok ("RGB 24: " ++ tripleB data)
  else if node.cid = 0x0012 ∧ 3 ≤ data.length then
    .ok ("Linear RGB 24: " ++ tripleB data)
  else if node.cid = 0x0013 ∧ 12 ≤ data.length then
    .ok ("Linear RGB Float: " ++ tripleF data)
  else if node.cid = 0x0030 ∧ 2 ≤ data.length then
    .ok ("Int Percentage: " ++ natStr (u16 data 0) ++ "%")
  else if node.cid = 0x0031 ∧ 4 ≤ data.length then
    .ok ("Float Percentage: " ++ fmtF "pct" (f32v data 0) ++ "%")
  else if node.cid = 0xA000 then
    .ok ("Material Name: \"" ++ asciiz data ++ "\"")
  else if node.cid = 0xA010 ∨ node.cid = 0xA020 ∨ node.cid = 0xA030 then
    match colorChildScan full_data (colorName node.cid) node.children with
    | some s => .ok s
    | none =>
      match parent? with
      | none => .error PyErr.attrError
      | some p =>
        match colorSibScan node full_data (colorName node.cid) p.children with
        | some s => .ok s
        | none => .ok (colorName node.cid ++ ": (not set) [default: (1.0, 1.0, 1.0)]")
  else if node.cid = 0xA040 then
    match pctChildScan full_data "Shininess" node.children with
    | some s => .ok s
    | none => .ok "Shininess: (not set) [default: 0%]"
  else if node.cid = 0xA041 then
    match pctChildScan full_data "Shin Strength" node.children with
    | some s => .ok s
    | none => .ok "Shin Strength: (not set) [default: 0%]"
  else if node.cid = 0xA050 then
    match pctChildScan full_data "Transparency" node.children with
    | some s => .ok s
    | none => .ok "Transparency: (not set) [default: 0%]"
  else if node.cid = 0xA084 then
    match pctChildScan full_data "Self Illumination" node.children with
    | some s => .ok s
    | none => .ok "Self Illumination: (not set) [default: 0%]"
  else if node.cid = 0xA087 then
    if 4 ≤ data.length then .ok ("Wire Size: " ++ fmtF ".4f" (f32v data 0))
    else .ok "Wire Size: (not set) [default: 1.0]"
  else if node.cid = 0xA100 ∧ 2 ≤ data.length then
    .ok ("Shading: " ++ shadingName (u16 data 0))
  else if node.cid = 0x4110 then
    if data.length < 2 then .ok "Invalid Vertex List"
    else
      .ok (String.intercalate "\n" (("Vertex Count: " ++ natStr (u16 data 0)) ::
        vertexLines data 2 0 (min (u16 data 0) 20)))
  else if node.cid = 0x4120 then
    if data.length < 2 then .ok "Invalid Face List"
    else
      .ok (String.intercalate "\n" (("Face Count: " ++ natStr (u16 data 0)) ::
        faceLines data 2 0 (min (u16 data 0) 20)))
  else if node.cid = 0x4140 then
    if data.length < 2 then .ok "Invalid UV List"
    else
      match uvLines data 2 0 (min (u16 data 0) 20) with
      | .error e => .error e
      | .ok ls =>
        .ok (String.intercalate "\n" (("UV Count: " ++ natStr (u16 data 0)) :: ls))
  else if node.cid = 0x4160 ∧ 48 ≤ data.length then
    .ok ("Transform Matrix (3x4):\n" ++ mrow data 0 ++ "\n" ++ mrow data 16 ++
      "\n" ++ mrow data 32)
  else if node.cid = 0xA200 ∨ node.cid = 0xA204 ∨ node.cid = 0xA210 ∨
      node.cid = 0xA220 ∨ node.cid = 0xA230 then
    .ok (String.intercalate "\n" (mapName node.cid :: mapChildLines full_data node.children))
  else if node.cid = 0xA300 then
    .ok ("Texture File: \"" ++ asciiz data ++ "\"")
  else if node.cid = 0xA351 then
    if data.length < 32 then
      .ok ("Map Params (short/empty: " ++ natStr data.length ++ " bytes)")
    else
      .ok ("Map Params:\n  Scale=(" ++ fmtF ".4f" (f32v data 0) ++ ", " ++
        fmtF ".4f" (f32v data 4) ++ ")\n  Offset=(" ++ fmtF ".4f" (f32v data 8) ++
        ", " ++ fmtF ".4f" (f32v data 12) ++ ")\n  Rotation=" ++
        fmtF ".4f" (f32v data 16) ++ "°\n  Tiling=(" ++
        fmtF ".4f" (f32v data 20) ++ ", " ++ fmtF ".4f" (f32v data 24) ++ ")")
  else if node.cid = 0xA353 ∧ 4 ≤ data.length then
    .ok ("Blur: " ++ fmtF ".4f" (f32v data 0))
  else if node.cid = 0xB002 then
    .ok ("Object Node Tag (payload " ++ natStr data.length ++ " bytes)")
  else if node.cid = 0xB030 ∧ 2 ≤ data.length then
    .ok ("Node ID: " ++ natStr (u16 data 0))
  else if node.cid = 0x4200 then
    if data.length < 6 then .ok "Invalid MAP_CHANNEL"
    else
      .ok (String.intercalate "\n"
        ((["Channel Index: " ++ natStr (u32 data 0),
           "UV Count: " ++ natStr (u16 data 4)] ++
          (mcUV data 6 0 (min (u16 data 4) 10)).1) ++
          (if (mcUV data 6 0 (min (u16 data 4) 10)).2 + 2 ≤ data.length then
            ("UV Face Count: " ++
              natStr (u16 data (mcUV data 6 0 (min (u16 data 4) 10)).2)) ::
              mcFaces data ((mcUV data 6 0 (min (u16 data 4) 10)).2 + 2) 0
                (min (u16 data (mcUV data 6 0 (min (u16 data 4) 10)).2) 10)
          else [])))
  else
    .ok ("No decoder for 0x" ++ hex4 node.cid ++ " (payload " ++
      natStr data.length ++ " bytes)")

end GUI

/-! ### Specification-side view of the resolved-value family (claim C6)

These definitions follow the (amended) claim's wording: scan the node's
children, in order, for the first acceptable value-bearing sub-id; for the
three color containers only, fall back to the first acceptable sibling
(ids `0x0011`/`0x0010`); otherwise return the fixed default string. -/

def acceptColorChild (full : List Nat) (c : ChunkNode) : Bool :=
  (c.cid == 0x0010 && decide (12 ≤ (payloadOf full c).length)) ||
  (c.cid == 0x0011 && decide (3 ≤ (payloadOf full c).length)) ||
  (c.cid == 0x0012 && decide (3 ≤ (payloadOf full c).length)) ||
  (c.cid == 0x0013 && decide (12 ≤ (payloadOf full c).length))

def renderColorChild (full : List Nat) (name : String) (c : ChunkNode) : String :=
  if c.cid = 0x0010 ∧ 12 ≤ (payloadOf full c).length then
    name ++ ": " ++ tripleF (payloadOf full c)
  else if c.cid = 0x0011 ∧ 3 ≤ (payloadOf full c).length then
    name ++ ": " ++ tripleB (payloadOf full c)
  else if c.cid = 0x0012 ∧ 3 ≤ (payloadOf full c).length then
    name ++ " (Linear): " ++ tripleB (payloadOf full c)
  else
    name ++ " (Linear): " ++ tripleF (payloadOf full c)

def acceptColorSib (full : List Nat) (s : ChunkNode) : Bool :=
  (s.cid == 0x0011 && decide (3 ≤ (payloadOf full s).length)) ||
  (s.cid == 0x0010 && decide (12 ≤ (payloadOf full s).length))

def renderColorSib (full : List Nat) (name : String) (s : ChunkNode) : String :=
  if s.cid = 0x0011 ∧ 3 ≤ (payloadOf full s).length then
    name ++ " (from parent): " ++ tripleB (payloadOf full s)
  else
    name ++ " (from parent): " ++ tripleF (payloadOf full s)

def acceptPctChild (full : List Nat) (c : ChunkNode) : Bool :=
  (c.cid == 0x0030 && decide (2 ≤ (payloadOf full c).length)) ||
  (c.cid == 0x0031 && decide (4 ≤ (payloadOf full c).length))

def renderPctChild (full : List Nat) (label : String) (c : ChunkNode) : String :=
  if c.cid = 0x0030 ∧ 2 ≤ (payloadOf full c).length then
    label ++ ": " ++ natStr (u16 (payloadOf full c) 0) ++ "%"
  else
    label ++ ": " ++ fmtF "pct" (f32v (payloadOf full c) 0) ++ "%"

def pctLabel (cid : Nat) : String :=
  if cid = 0xA040 then "Shininess"
  else if cid = 0xA041 then "Shin Strength"
  else if cid = 0xA050 then "Transparency"
  else "Self Illumination"

def colorDefaultStr (name : String) : String :=
  name ++ ": (not set) [default: (1.0, 1.0, 1.0)]"

def pctDefaultStr (label : String) : String :=
  label ++ ": (not set) [default: 0%]"

/-- Amended-claim resolution for the three color containers: children
first (in order), then siblings other than the node (in order, ids
`0x0011`/`0x0010` only), then the fixed default. -/
def resolvedColorSpec (node p : ChunkNode) (full : List Nat) : String :=
  match (ChunkList.toList node.children).find? (acceptColorChild full) with
  | some c => renderColorChild full (colorName node.cid) c
  | none =>
    match ((ChunkList.toList p.children).filter
        (fun s => !(s == node))).find? (acceptColorSib full) with
    | some s => renderColorSib full (colorName node.cid) s
    | none => colorDefaultStr (colorName node.cid)

/-- Amended-claim resolution for the percentage family: children only,
then the fixed default (no sibling scan). -/
def resolvedPctSpec (node : ChunkNode) (full : List Nat) : String :=
  match (ChunkList.toList node.children).find? (acceptPctChild full) with
  | some c => renderPctChild full (pctLabel node.cid) c
  | none => pctDefaultStr (pctLabel node.cid)

/-- The resolved-value family of claim C6. -/
def resolvedFamily : List Nat :=
  [0xA010, 0xA020, 0xA030, 0xA040, 0xA041, 0xA050, 0xA084]

/-- Amended-claim resolution for any family member. -/
def resolvedValueSpec (node p : ChunkNode) (full : List Nat) : String :=
  if node.cid = 0xA010 ∨ node.cid = 0xA020 ∨ node.cid = 0xA030 then
    resolvedColorSpec node p full
  else resolvedPctSpec node full

/-! ### Specification-side views of the payload heuristic (claim C1) -/

/-- Claim C1 exactly as stated: "at least 85%" for the ASCII stage, then
the exact-length matrix/vector stages, then the positive-multiple-of-4 and
even-length stages (the "parseable as floats" conditions always hold at
the respective lengths). -/
def guessSpecClaimed (data : List Nat) : String :=
  if data.length = 0 then "Empty"
  else if 85 * data.length ≤ 100 * goodCount data then "ASCII"
  else if data.length = 48 then "Matrix3x4"
  else if data.length = 12 then "Vector3"
  else if data.length % 4 = 0 then "Float array"
  else if data.length % 2 = 0 then "UInt16 array"
  else "Binary"

/-- Claim C1 amended for the experimental variant: identical to the claim
except that the ASCII stage requires strictly more than 85%. -/
def guessSpecExp (data : List Nat) : String :=
  if data.length = 0 then "Empty"
  else if 85 * data.length < 100 * goodCount data then "ASCII"
  else if data.length = 48 then "Matrix3x4"
  else if data.length = 12 then "Vector3"
  else if data.length % 4 = 0 then "Float array"
  else if data.length % 2 = 0 then "UInt16 array"
  else "Binary"

/-- Claim C1 amended for the GUI variant: no Matrix3x4/Vector3 stages;
nonempty multiples of 4 are "Float array", remaining even lengths
"UInt16 array". -/
def guessSpecGUI (data : List Nat) : String :=
  if data.length = 0 then "Empty"
  else if 85 * data.length < 100 * goodCount data then "ASCII"
  else if data.length % 4 = 0 then "Float array"
  else if data.length % 2 = 0 then "UInt16 array"
  else "Binary"

/-! ### Concrete buffers and nodes used by the claim theorems -/

/-- 20 bytes, 17 printable: exactly 85% printable. -/
def c1buf : List Nat := List.replicate 17 65 ++ [0, 0, 0]

/-- One top-level chunk id `0x4140` (UV list), declared length 8,
payload `01 00` (count 1, no coordinate bytes). -/
def c2buf : List Nat := [0x40, 0x41, 8, 0, 0, 0, 1, 0]

/-- One top-level chunk id 2, declared length 12. -/
def c3buf : List Nat := [2, 0, 12, 0, 0, 0, 0, 0, 0, 0, 0, 0]

/-- Two top-level leaves: unknown id 1, then a genuine id `0xFFFF`. -/
def c5buf : List Nat := [1, 0, 6, 0, 0, 0, 255, 255, 6, 0, 0, 0]

/-- Material container `0xAFFF` holding an empty `0xA040` (shininess)
chunk and a sibling `0x0030` (int percentage) chunk with payload 50. -/
def c6buf1 : List Nat :=
  [0xFF, 0xAF, 20, 0, 0, 0, 0x40, 0xA0, 6, 0, 0, 0, 0x30, 0, 8, 0, 0, 0, 50, 0]

def c6nodeA040 : ChunkNode := ChunkNode.mk 0xA040 6 6 ChunkList.nil

def c6parent1 : ChunkNode :=
  ChunkNode.mk 0xAFFF 0 20 (ChunkList.cons c6nodeA040
    (ChunkList.cons (ChunkNode.mk 0x0030 12 8 ChunkList.nil) ChunkList.nil))

/-- Material container `0xAFFF` holding an empty `0xA010` (ambient color)
chunk and a sibling `0x0013` (linear float color) chunk with a 12-byte
payload. -/
def c6buf2 : List Nat :=
  [0xFF, 0xAF, 30, 0, 0, 0, 0x10, 0xA0, 6, 0, 0, 0, 0x13, 0, 18, 0, 0, 0] ++
    List.replicate 12 0

def c6nodeA010 : ChunkNode := ChunkNode.mk 0xA010 6 6 ChunkList.nil

def c6parent2 : ChunkNode :=
  ChunkNode.mk 0xAFFF 0 30 (ChunkList.cons c6nodeA010
    (ChunkList.cons (ChunkNode.mk 0x0013 12 18 ChunkList.nil) ChunkList.nil))

/-- Scenario C: named-object chunk (id `0x4000`, length 18) whose payload
is ASCII "Box01", a zero byte, and a 6-byte leaf chunk id `0x4100`. -/
def c7buf : List Nat :=
  [0x00, 0x40, 18, 0, 0, 0, 0x42, 0x6F, 0x78, 0x30, 0x31, 0,
   0x00, 0x41, 6, 0, 0, 0]

def c7namedNode : ChunkNode :=
  ChunkNode.mk 0x4000 0 18
    (ChunkList.cons (ChunkNode.mk 0x4100 12 6 ChunkList.nil) ChunkList.nil)

/-- Scenario A exactly as claim C9 words it: 12 bytes, container `0x4D4D`
of declared length 12 holding a child `0x0002` of declared length 6
(which therefore has no payload at all). -/
def c9bufA : List Nat := [0x4D, 0x4D, 12, 0, 0, 0, 2, 0, 6, 0, 0, 0]

/-- Scenario A with the lengths the 16-bit payload `3` actually requires:
14 bytes, outer length 14, child length 8, payload `03 00`. -/
def c9bufB : List Nat := [0x4D, 0x4D, 14, 0, 0, 0, 2, 0, 8, 0, 0, 0, 3, 0]

/-! ### Theorems -/

@[simp] theorem ChunkNode.cid_mk (c s z : Nat) (cs : ChunkList) :
    (ChunkNode.mk c s z cs).cid = c := rfl

@[simp] theorem ChunkNode.start_mk (c s z : Nat) (cs : ChunkList) :
    (ChunkNode.mk c s z cs).start = s := rfl

@[simp] theorem ChunkNode.size_mk (c s z : Nat) (cs : ChunkList) :
    (ChunkNode.mk c s z cs).size = z := rfl

@[simp] theorem ChunkNode.children_mk (c s z : Nat) (cs : ChunkList) :
    (ChunkNode.mk c s z cs).children = cs := rfl

@[simp] theorem parse_chunk_zero (data : List Nat) (off fend : Nat) :
    parse_chunk 0 data off fend = none := rfl

@[simp] theorem parseChildren_zero (data : List Nat) (pos pend : Nat) :
    parseChildren 0 data pos pend = none := rfl

theorem parse_chunk_succ (fuel : Nat) (data : List Nat) (off fend : Nat) :
    parse_chunk (fuel + 1) data off fend =
      parseChunkBody (parseChildren fuel) data off fend := rfl

theorem parseChildren_succ (fuel : Nat) (data : List Nat) (pos pend : Nat) :
    parseChildren (fuel + 1) data pos pend =
      parseChildrenBody (parse_chunk fuel) (parseChildren fuel) data pos pend := rfl

theorem scanZeroAux_ge (data : List Nat) :
    ∀ k pos, pos ≤ scanZeroAux data pos k := by
  intro k
  induction k with
  | zero => intro pos; simp [scanZeroAux]
  | succ k ih =>
    intro pos
    simp only [scanZeroAux]
    split
    · exact Nat.le_trans (Nat.le_succ pos) (ih (pos + 1))
    · exact Nat.le_refl pos

theorem childStart_ge (data : List Nat) (cid pstart pend : Nat) :
    pstart ≤ childStart data cid pstart pend := by
  have hz : pstart ≤ scanZero data pstart pend := scanZeroAux_ge data _ pstart
  unfold childStart skipName
  split
  · split
    · omega
    · omega
  · exact Nat.le_refl pstart

/-- Main parser invariant: a successfully parsed node starts at the
requested offset, has declared size at least 6 fitting inside the scope
limit, reports `next_offset = start + size`, and its children (and
recursively all descendants) are well-formed chains inside their payload
spans. -/
theorem parse_invariant : ∀ fuel : Nat,
    (∀ data off fend n nxt, parse_chunk fuel data off fend = some (some n, nxt) →
      n.start = off ∧ 6 ≤ n.size ∧ off + 6 ≤ fend ∧ off + n.size ≤ fend ∧
      nxt = off + n.size ∧
      chainB (childStart data n.cid (off + 6) (off + n.size)) n.children
        (off + n.size) = true ∧
      listOkB data n.children = true) ∧
    (∀ data pos pend cs, parseChildren fuel data pos pend = some cs →
      chainB pos cs pend = true ∧ listOkB data cs = true) := by
  intro fuel
  induction fuel with
  | zero =>
    constructor
    · intro data off fend n nxt h; simp at h
    · intro data pos pend cs h; simp at h
  | succ fuel ih =>
    obtain ⟨ihA, ihB⟩ := ih
    constructor
    · intro data off fend n nxt h
      rw [parse_chunk_succ] at h
      unfold parseChunkBody at h
      split at h
      · simp at h
      · split at h
        · simp at h
        · split at h
          · simp at h
          · rename_i hno1 hno2 hlen
            push_neg at hlen
            obtain ⟨hlen1, hlen2⟩ := hlen
            split at h
            · -- named object or container: children come from the child loop
              rcases hcs : parseChildren fuel data
                  (childStart data (u16 data off) (off + 6) (off + u32 data (off + 2)))
                  (off + u32 data (off + 2)) with _ | cs
              · rw [hcs] at h; simp at h
              · rw [hcs] at h
                simp only [Option.some.injEq, Prod.mk.injEq] at h
                obtain ⟨h5, h6⟩ := h
                subst h5; subst h6
                obtain ⟨hc, hl⟩ := ihB data _ _ cs hcs
                refine ⟨rfl, ?_, ?_, ?_, rfl, hc, hl⟩ <;>
                  (try simp only [ChunkNode.size_mk]) <;> omega
            · simp only [Option.some.injEq, Prod.mk.injEq] at h
              obtain ⟨h5, h6⟩ := h
              subst h5; subst h6
              refine ⟨rfl, ?_, ?_, ?_, rfl, rfl, rfl⟩ <;>
                (try simp only [ChunkNode.size_mk]) <;> omega
    · intro data pos pend cs h
      rw [parseChildren_succ] at h
      unfold parseChildrenBody at h
      split at h
      · rename_i hroom
        rcases hpc : parse_chunk fuel data pos pend with _ | r
        · rw [hpc] at h; simp at h
        · rw [hpc] at h
          rcases r with ⟨_ | child, nxt⟩
          · -- header failed: loop stops with no further children
            simp only [Option.some.injEq] at h
            subst h
            exact ⟨rfl, rfl⟩
          · obtain ⟨hst, hsz, hin, hend, hnxt, hchain, hlist⟩ :=
              ihA data pos pend child nxt hpc
            rcases child with ⟨ccid, cst, csz, cch⟩
            simp only [ChunkNode.cid_mk, ChunkNode.start_mk, ChunkNode.size_mk,
              ChunkNode.children_mk] at hst hsz hend hnxt hchain hlist
            subst hst
            simp only at h
            split at h
            · simp only [Option.some.injEq] at h
              subst h
              constructor
              · simp only [chainB, ChunkNode.start_mk, ChunkNode.size_mk,
                  Bool.and_eq_true, decide_eq_true_eq]
                exact ⟨⟨by omega, by omega⟩, trivial⟩
              · simp only [listOkB, Bool.and_eq_true, decide_eq_true_eq]
                exact ⟨⟨⟨by omega, hchain⟩, hlist⟩, trivial⟩
            · rcases hrest : parseChildren fuel data nxt pend with _ | rest
              · rw [hrest] at h; simp at h
              · rw [hrest] at h
                simp only [Option.some.injEq] at h
                subst h
                obtain ⟨hcr, hlr⟩ := ihB data nxt pend rest hrest
                constructor
                · simp only [chainB, ChunkNode.start_mk, ChunkNode.size_mk,
                    Bool.and_eq_true, decide_eq_true_eq]
                  refine ⟨⟨?_, ?_⟩, ?_⟩
                  · omega
                  · omega
                  · have hcc : cst + csz = nxt := by omega
                    rw [hcc]
                    exact hcr
                · simp only [listOkB, Bool.and_eq_true, decide_eq_true_eq]
                  exact ⟨⟨⟨by omega, hchain⟩, hlist⟩, hlr⟩
      · simp only [Option.some.injEq] at h
        subst h
        exact ⟨rfl, rfl⟩

/-- On failure (`None` returned), the reported next offset is never below
the offset the caller supplied, so the enclosing loops can detect
non-progress. -/
theorem parse_chunk_next_ge (fuel : Nat) (data : List Nat) (off fend nxt : Nat)
    (h : parse_chunk fuel data off fend = some (none, nxt)) : off ≤ nxt := by
  rcases fuel with _ | fuel
  · simp at h
  · rw [parse_chunk_succ] at h
    unfold parseChunkBody at h
    split at h
    · simp only [Option.some.injEq, Prod.mk.injEq] at h
      omega
    · split at h
      · rename_i h1 h2
        simp only [Option.some.injEq, Prod.mk.injEq] at h
        omega
      · split at h
        · rename_i h1 h2 h3
          simp only [Option.some.injEq, Prod.mk.injEq] at h
          omega
        · split at h
          · rcases hcs : parseChildren fuel data
                (childStart data (u16 data off) (off + 6) (off + u32 data (off + 2)))
                (off + u32 data (off + 2)) with _ | cs
            · rw [hcs] at h; simp at h
            · rw [hcs] at h; simp at h
          · simp at h

/-- Fuel adequacy: `span + 1` fuel suffices for `parse_chunk` on a scope
of `span` remaining bytes, and `span + 2` for the child loop.  This is the
formal counterpart of termination of the Python recursion on every finite
buffer. -/
theorem fuelEnough : ∀ fuel : Nat,
    (∀ data off fend, fend - off < fuel →
      (parse_chunk fuel data off fend).isSome = true) ∧
    (∀ data pos pend, pend - pos + 1 < fuel →
      (parseChildren fuel data pos pend).isSome = true) := by
  intro fuel
  induction fuel with
  | zero =>
    constructor <;> · intro _ _ _ h; omega
  | succ fuel ih =>
    obtain ⟨ihA, ihB⟩ := ih
    constructor
    · intro data off fend hf
      rw [parse_chunk_succ]
      unfold parseChunkBody
      split
      · simp
      · split
        · simp
        · split
          · simp
          · rename_i h1 h2 h3
            push_neg at h3
            obtain ⟨h31, h32⟩ := h3
            split
            · have hge : off + 6 ≤ childStart data (u16 data off) (off + 6)
                  (off + u32 data (off + 2)) := childStart_ge data _ _ _
              have hiso := ihB data
                (childStart data (u16 data off) (off + 6) (off + u32 data (off + 2)))
                (off + u32 data (off + 2)) (by omega)
              obtain ⟨cs, hcs⟩ := Option.isSome_iff_exists.mp hiso
              rw [hcs]
              simp
            · simp
    · intro data pos pend hf
      rw [parseChildren_succ]
      unfold parseChildrenBody
      split
      · rename_i hroom
        have hiso := ihA data pos pend (by omega)
        obtain ⟨r, hr⟩ := Option.isSome_iff_exists.mp hiso
        rw [hr]
        rcases r with ⟨c?, nxt⟩
        rcases c? with _ | child
        · simp
        · obtain ⟨hst, hsz, hin, hend, hnxt, -, -⟩ :=
            (parse_invariant fuel).1 data pos pend child nxt hr
          simp only
          split
          · simp
          · rename_i hadv
            have hiso2 := ihB data nxt pend (by omega)
            obtain ⟨rest, hrest⟩ := Option.isSome_iff_exists.mp hiso2
            rw [hrest]
            simp
      · simp

/-- `parse` never runs out of fuel: the top-level child loop succeeds and
the root is the synthetic `0xFFFF` node over the whole buffer. -/
theorem parse_children_eq (data : List Nat) :
    ∃ cs, parseChildren (data.length + 2) data 0 data.length = some cs ∧
      parse data = ChunkNode.mk 0xFFFF 0 data.length cs := by
  have h := (fuelEnough (data.length + 2)).2 data 0 data.length (by omega)
  obtain ⟨cs, hcs⟩ := Option.isSome_iff_exists.mp h
  refine ⟨cs, hcs, ?_⟩
  unfold parse
  rw [hcs]

/-- `listOkB` implies the `size ≥ 6` bound on every node of every subtree. -/
theorem listOk_sizesAll :
    ∀ k cs, csize cs ≤ k → ∀ data, listOkB data cs = true → sizesAllB cs = true := by
  intro k
  induction k with
  | zero =>
    intro cs hk data h
    cases cs with
    | nil => rfl
    | cons n rest =>
      rcases n with ⟨c, s, z, ch⟩
      simp [csize] at hk
  | succ k ih =>
    intro cs hk data h
    cases cs with
    | nil => rfl
    | cons n rest =>
      rcases n with ⟨c, s, z, ch⟩
      simp only [csize] at hk
      simp only [listOkB, Bool.and_eq_true, decide_eq_true_eq] at h
      obtain ⟨⟨⟨h1, h2⟩, h3⟩, h4⟩ := h
      simp only [sizesAllB, Bool.and_eq_true, decide_eq_true_eq]
      exact ⟨⟨h1, ih ch (by omega) data h3⟩, ih rest (by omega) data h4⟩

theorem listOkB_sizesAllB (data : List Nat) (cs : ChunkList)
    (h : listOkB data cs = true) : sizesAllB cs = true :=
  listOk_sizesAll (csize cs) cs (Nat.le_refl _) data h

theorem assocGet_set (reg : List (Nat × UEntry)) (k : Nat) (e : UEntry) (id : Nat) :
    assocGet (assocSet reg k e) id = if k = id then some e else assocGet reg id := by
  induction reg with
  | nil =>
    simp only [assocSet, assocGet]
  | cons kv rest ih =>
    rcases kv with ⟨k0, e0⟩
    simp only [assocSet, assocGet]
    by_cases h1 : k0 = k
    · subst h1
      simp only [if_pos rfl, assocGet]
      by_cases h2 : k0 = id <;> simp [h2]
    · rw [if_neg h1]
      simp only [assocGet]
      by_cases h2 : k0 = id
      · subst h2
        have h1' : ¬ k = k0 := fun h => h1 h.symm
        simp [h1']
      · simp only [if_neg h2, ih]

theorem getE_register (reg : List (Nat × UEntry)) (cid : Nat) (pcid? : Option Nat)
    (payload : List Nat) (guess : String) (id : Nat) :
    getE (register_unknown cid pcid? payload guess reg) id =
      if cid = id then applyOcc pcid? payload guess (getE reg cid) else getE reg id := by
  unfold getE register_unknown
  rw [assocGet_set]
  by_cases h : cid = id <;> simp [h]

theorem unknownId_iff (cid : Nat) :
    unknownId cid = true ↔ (cid ≠ 0xFFFF ∧ ¬ cid ∈ keys3DS ∧ ¬ cid ∈ keysI3D) := by
  simp [unknownId, and_assoc]

/-- The central registry characterization: after walking a sibling list,
the entry held for `id` is the fold of the per-occurrence update over the
occurrences of `id` in walk order, starting from the entry held before. -/
theorem walk_char :
    ∀ k cs, csize cs ≤ k → ∀ data pcid? reg id,
      getE (walkAll data pcid? reg cs) id =
        (occsFor id pcid? cs).foldl (occStep data) (getE reg id) := by
  intro k
  induction k with
  | zero =>
    intro cs hk data pcid? reg id
    cases cs with
    | nil => simp [walkAll, occsFor, visits]
    | cons n rest =>
      rcases n with ⟨c, s, z, ch⟩
      simp [csize] at hk
  | succ k ih =>
    intro cs hk data pcid? reg id
    cases cs with
    | nil => simp [walkAll, occsFor, visits]
    | cons n rest =>
      rcases n with ⟨cid, st, sz, ch⟩
      simp only [csize] at hk
      simp only [walkAll]
      rw [ih rest (by omega) data pcid? _ id, ih ch (by omega) data (some cid) _ id]
      have hocc : occsFor id pcid? (ChunkList.cons (ChunkNode.mk cid st sz ch) rest) =
          (if cid == id && unknownId cid then
            [(pcid?, ChunkNode.mk cid st sz ch)] else []) ++
            (occsFor id (some cid) ch ++ occsFor id pcid? rest) := by
        simp only [occsFor, visits, List.filter_cons, List.filter_append,
          ChunkNode.cid_mk]
        by_cases hb : cid == id && unknownId cid
        · simp [hb]
        · simp [hb]
      rw [hocc, List.foldl_append, List.foldl_append]
      have hbase : getE (if cid ≠ 0xFFFF ∧ ¬ cid ∈ keys3DS ∧ ¬ cid ∈ keysI3D then
            register_unknown cid pcid? (sliceBytes data (st + 6) (st + sz))
              (guess_payload_type (sliceBytes data (st + 6) (st + sz))) reg
          else reg) id =
          (if cid == id && unknownId cid then
            [(pcid?, ChunkNode.mk cid st sz ch)] else []).foldl (occStep data)
            (getE reg id) := by
        by_cases hP : cid ≠ 0xFFFF ∧ ¬ cid ∈ keys3DS ∧ ¬ cid ∈ keysI3D
        · rw [if_pos hP]
          have hu : unknownId cid = true := (unknownId_iff cid).mpr hP
          rw [getE_register]
          by_cases hid : cid = id
          · subst hid
            simp only [hu, beq_self_eq_true, Bool.and_self, if_pos rfl, if_true,
              Bool.true_and, List.foldl_cons, List.foldl_nil]
            rfl
          · rw [if_neg hid]
            have : (cid == id) = false := by simp [hid]
            simp [this]
        · rw [if_neg hP]
          have hu : unknownId cid = false := by
            rcases Bool.eq_false_or_eq_true (unknownId cid) with h | h
            · exact absurd ((unknownId_iff cid).mp h) hP
            · exact h
          simp [hu]
      rw [hbase]

theorem foldl_count (data : List Nat) :
    ∀ (os : List (Option Nat × ChunkNode)) (e : UEntry), (os.foldl (occStep data) e).count = e.count + os.length := by
  intro os
  induction os with
  | nil => intro e; simp
  | cons pn os ih =>
    intro e
    simp only [List.foldl_cons, ih, List.length_cons, occStep, applyOcc]
    omega

theorem foldl_sizes (data : List Nat) :
    ∀ (os : List (Option Nat × ChunkNode)) (e : UEntry), (os.foldl (occStep data) e).sizes =
      e.sizes ++ os.map (fun pn => (payloadOf data pn.2).length) := by
  intro os
  induction os with
  | nil => intro e; simp
  | cons pn os ih =>
    intro e
    simp only [List.foldl_cons, ih, List.map_cons, occStep, applyOcc]
    simp

theorem foldl_guesses (data : List Nat) :
    ∀ (os : List (Option Nat × ChunkNode)) (e : UEntry), (os.foldl (occStep data) e).guesses =
      e.guesses ++ os.map (fun pn => guess_payload_type (payloadOf data pn.2)) := by
  intro os
  induction os with
  | nil => intro e; simp
  | cons pn os ih =>
    intro e
    simp only [List.foldl_cons, ih, List.map_cons, occStep, applyOcc]
    simp

theorem foldl_samples (data : List Nat) :
    ∀ (os : List (Option Nat × ChunkNode)) (e : UEntry), (os.foldl (occStep data) e).samples =
      e.samples ++
        (os.map (fun pn => (payloadOf data pn.2).take 128)).take
          (3 - e.samples.length) := by
  intro os
  induction os with
  | nil => intro e; simp
  | cons pn os ih =>
    intro e
    simp only [List.foldl_cons, ih, List.map_cons, occStep, applyOcc]
    by_cases h3 : e.samples.length < 3
    · rw [if_pos h3]
      have hl : (e.samples ++ [(payloadOf data pn.2).take 128]).length =
          e.samples.length + 1 := by simp
      rw [hl]
      have h4 : 3 - e.samples.length = (3 - (e.samples.length + 1)) + 1 := by omega
      rw [h4, List.take_succ_cons, List.append_assoc]
      rfl
    · rw [if_neg h3]
      have h4 : 3 - e.samples.length = 0 := by omega
      rw [h4]
      simp

theorem parents_mem_applyOcc (pl : List Nat) (g : String) (e : UEntry) (p : Nat)
    (hp : p ≠ 0) : p ∈ (applyOcc (some p) pl g e).parents := by
  simp only [applyOcc]
  by_cases h : p ∈ e.parents
  · split
    · simp [h]
    · exact h
  · rw [if_pos ⟨hp, h⟩]
    simp

theorem parents_mono_applyOcc (pcid? : Option Nat) (pl : List Nat) (g : String)
    (e : UEntry) (q : Nat) (hq : q ∈ e.parents) :
    q ∈ (applyOcc pcid? pl g e).parents := by
  rcases pcid? with _ | p
  · simpa only [applyOcc] using hq
  · simp only [applyOcc]
    split
    · simp [hq]
    · exact hq

theorem foldl_parents_mono (data : List Nat) :
    ∀ (os : List (Option Nat × ChunkNode)) (e : UEntry) (q : Nat), q ∈ e.parents → q ∈ (os.foldl (occStep data) e).parents := by
  intro os
  induction os with
  | nil => intro e q hq; simpa using hq
  | cons pn os ih =>
    intro e q hq
    simp only [List.foldl_cons]
    exact ih _ q (parents_mono_applyOcc pn.1 _ _ e q hq)

theorem foldl_parents_mem (data : List Nat) :
    ∀ (os : List (Option Nat × ChunkNode)) (e : UEntry) (pn : Option Nat × ChunkNode)
      (p : Nat), pn ∈ os → pn.1 = some p → p ≠ 0 →
      p ∈ (os.foldl (occStep data) e).parents := by
  intro os
  induction os with
  | nil => intro e pn p h; simp at h
  | cons pn0 os ih =>
    intro e pn p hmem hp hp0
    simp only [List.mem_cons] at hmem
    rcases hmem with rfl | hmem
    · simp only [List.foldl_cons]
      apply foldl_parents_mono
      rw [occStep, hp]
      exact parents_mem_applyOcc _ _ _ p hp0
    · simp only [List.foldl_cons]
      exact ih _ pn p hmem hp hp0

theorem acceptColorChild_iff (full : List Nat) (c : ChunkNode) :
    acceptColorChild full c = true ↔
      ((c.cid = 0x0010 ∧ 12 ≤ (payloadOf full c).length) ∨
       (c.cid = 0x0011 ∧ 3 ≤ (payloadOf full c).length) ∨
       (c.cid = 0x0012 ∧ 3 ≤ (payloadOf full c).length) ∨
       (c.cid = 0x0013 ∧ 12 ≤ (payloadOf full c).length)) := by
  simp only [acceptColorChild, Bool.or_eq_true, Bool.and_eq_true, beq_iff_eq,
    decide_eq_true_eq]
  tauto

theorem acceptColorSib_iff (full : List Nat) (s : ChunkNode) :
    acceptColorSib full s = true ↔
      ((s.cid = 0x0011 ∧ 3 ≤ (payloadOf full s).length) ∨
       (s.cid = 0x0010 ∧ 12 ≤ (payloadOf full s).length)) := by
  simp only [acceptColorSib, Bool.or_eq_true, Bool.and_eq_true, beq_iff_eq,
    decide_eq_true_eq]

theorem acceptPctChild_iff (full : List Nat) (c : ChunkNode) :
    acceptPctChild full c = true ↔
      ((c.cid = 0x0030 ∧ 2 ≤ (payloadOf full c).length) ∨
       (c.cid = 0x0031 ∧ 4 ≤ (payloadOf full c).length)) := by
  simp only [acceptPctChild, Bool.or_eq_true, Bool.and_eq_true, beq_iff_eq,
    decide_eq_true_eq]

/-- The decoder's child color loop equals first-acceptable-child rendering. -/
theorem colorChildScan_eq (full : List Nat) (name : String) :
    ∀ k cs, csize cs ≤ k →
      GUI.colorChildScan full name cs =
        ((ChunkList.toList cs).find? (acceptColorChild full)).map
          (renderColorChild full name) := by
  intro k
  induction k with
  | zero =>
    intro cs hk
    cases cs with
    | nil => rfl
    | cons c rest => rcases c with ⟨a, b, d, e⟩; simp [csize] at hk
  | succ k ih =>
    intro cs hk
    cases cs with
    | nil => rfl
    | cons c rest =>
      have hk' : csize rest ≤ k := by
        rcases c with ⟨a, b, d, e⟩; simp only [csize] at hk; omega
      simp only [GUI.colorChildScan, ChunkList.toList]
      by_cases h1 : c.cid = 0x0010 ∧ 12 ≤ (payloadOf full c).length
      · have hacc := (acceptColorChild_iff full c).mpr (Or.inl h1)
        have hr : renderColorChild full name c =
            name ++ ": " ++ tripleF (payloadOf full c) := by
          rw [renderColorChild, if_pos h1]
        rw [if_pos h1, List.find?_cons_of_pos _ hacc]
        simp [hr]
      · rw [if_neg h1]
        by_cases h2 : c.cid = 0x0011 ∧ 3 ≤ (payloadOf full c).length
        · have hacc := (acceptColorChild_iff full c).mpr (Or.inr (Or.inl h2))
          have hr : renderColorChild full name c =
              name ++ ": " ++ tripleB (payloadOf full c) := by
            rw [renderColorChild, if_neg h1, if_pos h2]
          rw [if_pos h2, List.find?_cons_of_pos _ hacc]
          simp [hr]
        · rw [if_neg h2]
          by_cases h3 : c.cid = 0x0012 ∧ 3 ≤ (payloadOf full c).length
          · have hacc := (acceptColorChild_iff full c).mpr (Or.inr (Or.inr (Or.inl h3)))
            have hr : renderColorChild full name c =
                name ++ " (Linear): " ++ tripleB (payloadOf full c) := by
              rw [renderColorChild, if_neg h1, if_neg h2, if_pos h3]
            rw [if_pos h3, List.find?_cons_of_pos _ hacc]
            simp [hr]
          · rw [if_neg h3]
            by_cases h4 : c.cid = 0x0013 ∧ 12 ≤ (payloadOf full c).length
            · have hacc := (acceptColorChild_iff full c).mpr
                (Or.inr (Or.inr (Or.inr h4)))
              have hr : renderColorChild full name c =
                  name ++ " (Linear): " ++ tripleF (payloadOf full c) := by
                rw [renderColorChild, if_neg h1, if_neg h2, if_neg h3]
              rw [if_pos h4, List.find?_cons_of_pos _ hacc]
              simp [hr]
            · have hacc : ¬ acceptColorChild full c = true := by
                rw [acceptColorChild_iff]; tauto
              rw [if_neg h4, List.find?_cons_of_neg _ hacc]
              exact ih rest hk'

/-- The decoder's sibling color loop equals first-acceptable-other-sibling
rendering. -/
theorem colorSibScan_eq (node : ChunkNode) (full : List Nat) (name : String) :
    ∀ k cs, csize cs ≤ k →
      GUI.colorSibScan node full name cs =
        (((ChunkList.toList cs).filter (fun s => !(s == node))).find?
          (acceptColorSib full)).map (renderColorSib full name) := by
  intro k
  induction k with
  | zero =>
    intro cs hk
    cases cs with
    | nil => rfl
    | cons c rest => rcases c with ⟨a, b, d, e⟩; simp [csize] at hk
  | succ k ih =>
    intro cs hk
    cases cs with
    | nil => rfl
    | cons sib rest =>
      have hk' : csize rest ≤ k := by
        rcases sib with ⟨a, b, d, e⟩; simp only [csize] at hk; omega
      simp only [GUI.colorSibScan, ChunkList.toList]
      by_cases h0 : sib = node
      · rw [if_pos h0, List.filter_cons_of_neg (by simp [h0])]
        exact ih rest hk'
      · rw [if_neg h0, List.filter_cons_of_pos (by simp [h0])]
        by_cases h1 : sib.cid = 0x0011 ∧ 3 ≤ (payloadOf full sib).length
        · have hacc := (acceptColorSib_iff full sib).mpr (Or.inl h1)
          have hr : renderColorSib full name sib =
              name ++ " (from parent): " ++ tripleB (payloadOf full sib) := by
            rw [renderColorSib, if_pos h1]
          rw [if_pos h1, List.find?_cons_of_pos _ hacc]
          simp [hr]
        · rw [if_neg h1]
          by_cases h2 : sib.cid = 0x0010 ∧ 12 ≤ (payloadOf full sib).length
          · have hacc := (acceptColorSib_iff full sib).mpr (Or.inr h2)
            have hr : renderColorSib full name sib =
                name ++ " (from parent): " ++ tripleF (payloadOf full sib) := by
              rw [renderColorSib, if_neg h1]
            rw [if_pos h2, List.find?_cons_of_pos _ hacc]
            simp [hr]
          · have hacc : ¬ acceptColorSib full sib = true := by
              rw [acceptColorSib_iff]; tauto
            rw [if_neg h2, List.find?_cons_of_neg _ hacc]
            exact ih rest hk'

/-- The decoder's percentage child loop equals first-acceptable-child
rendering. -/
theorem pctChildScan_eq (full : List Nat) (label : String) :
    ∀ k cs, csize cs ≤ k →
      GUI.pctChildScan full label cs =
        ((ChunkList.toList cs).find? (acceptPctChild full)).map
          (renderPctChild full label) := by
  intro k
  induction k with
  | zero =>
    intro cs hk
    cases cs with
    | nil => rfl
    | cons c rest => rcases c with ⟨a, b, d, e⟩; simp [csize] at hk
  | succ k ih =>
    intro cs hk
    cases cs with
    | nil => rfl
    | cons c rest =>
      have hk' : csize rest ≤ k := by
        rcases c with ⟨a, b, d, e⟩; simp only [csize] at hk; omega
      simp only [GUI.pctChildScan, ChunkList.toList]
      by_cases h1 : c.cid = 0x0030 ∧ 2 ≤ (payloadOf full c).length
      · have hacc := (acceptPctChild_iff full c).mpr (Or.inl h1)
        have hr : renderPctChild full label c =
            label ++ ": " ++ natStr (u16 (payloadOf full c) 0) ++ "%" := by
          rw [renderPctChild, if_pos h1]
        rw [if_pos h1, List.find?_cons_of_pos _ hacc]
        simp [hr]
      · rw [if_neg h1]
        by_cases h2 : c.cid = 0x0031 ∧ 4 ≤ (payloadOf full c).length
        · have hacc := (acceptPctChild_iff full c).mpr (Or.inr h2)
          have hr : renderPctChild full label c =
              label ++ ": " ++ fmtF "pct" (f32v (payloadOf full c) 0) ++ "%" := by
            rw [renderPctChild, if_neg h1]
          rw [if_pos h2, List.find?_cons_of_pos _ hacc]
          simp [hr]
        · have hacc : ¬ acceptPctChild full c = true := by
            rw [acceptPctChild_iff]; tauto
          rw [if_neg h2, List.find?_cons_of_neg _ hacc]
          exact ih rest hk'

theorem append_ne_empty (a b : String) (ha : a ≠ "") : a ++ b ≠ "" := by
  intro h
  apply ha
  rcases a with ⟨la⟩
  rcases b with ⟨lb⟩
  have hd : la ++ lb = ([] : List Char) := congrArg String.data h
  have h1 : la = [] := (List.append_eq_nil.mp hd).1
  rw [h1]

theorem colorName_ne (cid : Nat) : colorName cid ≠ "" := by
  unfold colorName
  split_ifs <;> decide

theorem pctLabel_ne (cid : Nat) : pctLabel cid ≠ "" := by
  unfold pctLabel
  split_ifs <;> decide

theorem resolvedColorSpec_ne (node p : ChunkNode) (full : List Nat) :
    resolvedColorSpec node p full ≠ "" := by
  have hname := colorName_ne node.cid
  unfold resolvedColorSpec
  rcases h1 : (ChunkList.toList node.children).find? (acceptColorChild full) with _ | c
  · rcases h2 : ((ChunkList.toList p.children).filter
        (fun s => !(s == node))).find? (acceptColorSib full) with _ | s
    · exact append_ne_empty _ _ hname
    · unfold renderColorSib
      dsimp only
      split_ifs <;> exact append_ne_empty _ _ (append_ne_empty _ _ hname)
  · unfold renderColorChild
    dsimp only
    split_ifs <;> exact append_ne_empty _ _ (append_ne_empty _ _ hname)

theorem resolvedPctSpec_ne (node : ChunkNode) (full : List Nat) :
    resolvedPctSpec node full ≠ "" := by
  have hname := pctLabel_ne node.cid
  unfold resolvedPctSpec
  rcases h1 : (ChunkList.toList node.children).find? (acceptPctChild full) with _ | c
  · exact append_ne_empty _ _ hname
  · unfold renderPctChild
    dsimp only
    split_ifs
    · exact append_ne_empty _ _ (append_ne_empty _ _ (append_ne_empty _ _ hname))
    · exact append_ne_empty _ _ (append_ne_empty _ _ (append_ne_empty _ _ hname))

/-- The decoder's color branch refines `resolvedColorSpec`. -/
theorem decode_color (node p : ChunkNode) (data full : List Nat)
    (hc : node.cid = 0xA010 ∨ node.cid = 0xA020 ∨ node.cid = 0xA030) :
    GUI.ChunkDecoder.decode node (some p) data full =
      Except.ok (resolvedColorSpec node p full) := by
  have hscan := colorChildScan_eq full (colorName node.cid)
    (csize node.children) node.children (Nat.le_refl _)
  have hsib := colorSibScan_eq node full (colorName node.cid)
    (csize p.children) p.children (Nat.le_refl _)
  have hdec : GUI.ChunkDecoder.decode node (some p) data full =
      match GUI.colorChildScan full (colorName node.cid) node.children with
      | some s => Except.ok s
      | none =>
        match GUI.colorSibScan node full (colorName node.cid) p.children with
        | some s => Except.ok s
        | none =>
          Except.ok (colorName node.cid ++ ": (not set) [default: (1.0, 1.0, 1.0)]") := by
    rcases hc with h | h | h <;> simp [GUI.ChunkDecoder.decode, h]
  rw [hdec]
  unfold resolvedColorSpec
  rcases h1 : (ChunkList.toList node.children).find? (acceptColorChild full) with _ | c
  · rw [h1] at hscan
    simp only [Option.map] at hscan
    rw [hscan]
    rcases h2 : ((ChunkList.toList p.children).filter
        (fun s => !(s == node))).find? (acceptColorSib full) with _ | s
    · rw [h2] at hsib
      simp only [Option.map] at hsib
      rw [hsib]
      rfl
    · rw [h2] at hsib
      simp only [Option.map] at hsib
      rw [hsib]
  · rw [h1] at hscan
    simp only [Option.map] at hscan
    rw [hscan]

/-- The decoder's percentage branches refine `resolvedPctSpec`. -/
theorem decode_pct (node p : ChunkNode) (data full : List Nat)
    (hc : node.cid = 0xA040 ∨ node.cid = 0xA041 ∨ node.cid = 0xA050 ∨
      node.cid = 0xA084) :
    GUI.ChunkDecoder.decode node (some p) data full =
      Except.ok (resolvedPctSpec node full) := by
  have hscan := pctChildScan_eq full (pctLabel node.cid)
    (csize node.children) node.children (Nat.le_refl _)
  have hdec : GUI.ChunkDecoder.decode node (some p) data full =
      match GUI.pctChildScan full (pctLabel node.cid) node.children with
      | some s => Except.ok s
      | none => Except.ok (pctLabel node.cid ++ ": (not set) [default: 0%]") := by
    rcases hc with h | h | h | h <;> simp [GUI.ChunkDecoder.decode, h, pctLabel]
  rw [hdec]
  unfold resolvedPctSpec
  rcases h1 : (ChunkList.toList node.children).find? (acceptPctChild full) with _ | c
  · rw [h1] at hscan
    simp only [Option.map] at hscan
    rw [hscan]
    rfl
  · rw [h1] at hscan
    simp only [Option.map] at hscan
    rw [hscan]

/-! ### Claim theorems -/

/-- Claim C1, counterexample: a 20-byte payload with exactly 85% printable
bytes satisfies the claim's "at least 85% → ASCII" condition
(`guessSpecClaimed`), yet both implementations label it "Float array"
because the code requires strictly more than 85%; additionally, the GUI
variant labels 48 non-ASCII bytes "Float array" where the claim's
precedence demands "Matrix3x4". -/
theorem c1_counterexample :
    guessSpecClaimed c1buf = "ASCII" ∧
    guess_payload_type c1buf = "Float array" ∧
    GUI.guess_payload_type c1buf = "Float array" ∧
    guess_payload_type (List.replicate 48 0) = "Matrix3x4" ∧
    GUI.guess_payload_type (List.replicate 48 0) = "Float array" := by
  refine ⟨by decide, by decide, by decide, by decide, by decide⟩

/-- Claim C1 (amended): both heuristics are total and return exactly one
label per slice, by the documented precedence, except that the ASCII stage
requires strictly more than 85% printable bytes (not "at least"), and the
GUI variant has no Matrix3x4/Vector3 stages (48- and 12-byte non-ASCII
payloads fall through to "Float array"). -/
theorem c1_amended (data : List Nat) :
    guess_payload_type data = guessSpecExp data ∧
    GUI.guess_payload_type data = guessSpecGUI data := by
  have hempty : data.isEmpty = true ↔ data.length = 0 := by
    cases data <;> simp
  constructor
  · unfold guess_payload_type guessSpecExp
    by_cases h0 : data.length = 0
    · rw [if_pos (hempty.mpr h0), if_pos h0]
    · rw [if_neg (fun h => h0 (hempty.mp h)), if_neg h0]
      have hascii : looks_ascii data = decide (100 * goodCount data > 85 * data.length) := by
        unfold looks_ascii
        rw [if_neg (fun h => h0 (hempty.mp h))]
      by_cases hA : 85 * data.length < 100 * goodCount data
      · rw [if_pos hA, if_pos (by rw [hascii]; simpa using hA)]
      · rw [if_neg hA, if_neg (by rw [hascii]; simpa using hA)]
        unfold looks_matrix3x4 looks_vector3 looks_float_array looks_u16_array
        by_cases h48 : data.length = 48
        · rw [if_pos h48, if_pos (by simp [h48])]
        · rw [if_neg h48, if_neg (by simpa using h48)]
          by_cases h12 : data.length = 12
          · rw [if_pos h12, if_pos (by simp [h12])]
          · rw [if_neg h12, if_neg (by simpa using h12)]
            by_cases h4 : data.length % 4 = 0
            · rw [if_pos h4, if_pos (by
                simp only [Bool.and_eq_true, decide_eq_true_eq, beq_iff_eq]
                omega)]
            · rw [if_neg h4, if_neg (by
                simp only [Bool.and_eq_true, decide_eq_true_eq, beq_iff_eq]
                omega)]
              by_cases h2 : data.length % 2 = 0
              · rw [if_pos h2, if_pos (by
                  simp only [Bool.and_eq_true, decide_eq_true_eq, beq_iff_eq]
                  omega)]
              · rw [if_neg h2, if_neg (by
                  simp only [Bool.and_eq_true, decide_eq_true_eq, beq_iff_eq]
                  omega)]
  · unfold GUI.guess_payload_type guessSpecGUI
    by_cases h0 : data.length = 0
    · rw [if_pos (hempty.mpr h0), if_pos h0]
    · rw [if_neg (fun h => h0 (hempty.mp h)), if_neg h0]
      have hascii : GUI.looks_ascii data =
          decide (100 * goodCount data > 85 * data.length) := by
        unfold GUI.looks_ascii
        rw [if_neg (fun h => h0 (hempty.mp h))]
      by_cases hA : 85 * data.length < 100 * goodCount data
      · rw [if_pos hA, if_pos (by rw [hascii]; simpa using hA)]
      · rw [if_neg hA, if_neg (by rw [hascii]; simpa using hA)]
        by_cases h4 : data.length % 4 = 0
        · rw [if_pos h4, if_pos (by simpa using h4)]
        · rw [if_neg h4, if_neg (by simpa using h4)]
          by_cases h2 : data.length % 2 = 0
          · rw [if_pos h2, if_pos (by simpa using h2)]
          · rw [if_neg h2, if_neg (by simpa using h2)]

/-- Claim C2, code evaluation at the failing input: parsing a single
top-level UV-list chunk (id `0x4140`, declared length 8) leaves a 2-byte
payload `01 00`; its declared UV count is 1, and the GUI decoder's UV loop
reads `f32(data, 2)` on an empty slice without any bounds check, so
`decode` raises `struct.error` instead of returning text.  (The
experimental variant's corresponding loop carries the bounds check the
spec demands.) -/
theorem c2_code_evaluation :
    parse c2buf = ChunkNode.mk 0xFFFF 0 8
      (ChunkList.cons (ChunkNode.mk 0x4140 0 8 ChunkList.nil) ChunkList.nil) ∧
    payloadOf c2buf (ChunkNode.mk 0x4140 0 8 ChunkList.nil) = [1, 0] ∧
    GUI.ChunkDecoder.decode (ChunkNode.mk 0x4140 0 8 ChunkList.nil)
      (some (parse c2buf)) (payloadOf c2buf (ChunkNode.mk 0x4140 0 8 ChunkList.nil))
      c2buf = Except.error PyErr.structError := by
  refine ⟨rfl, rfl, rfl⟩

/-- Claim C3, counterexample: for a buffer holding one top-level chunk,
the chunk is a child of the synthetic root (start 0, size 12), whose
payload span is `[6, 12)`; the child's span `[0, 12)` is not contained in
it, so the claim's containment property (`treeContainedClaim`, which reads
exactly as the claim) fails on the parsed tree. -/
theorem c3_counterexample :
    parse c3buf = ChunkNode.mk 0xFFFF 0 12
      (ChunkList.cons (ChunkNode.mk 2 0 12 ChunkList.nil) ChunkList.nil) ∧
    treeContainedClaim (parse c3buf) = false := by
  refine ⟨rfl, by decide⟩

/-- Claim C3 (amended): in every parsed tree, the children of every
non-root node lie inside that node's payload span with pairwise-disjoint
spans at strictly increasing offsets (`listOkB`), and the root's children
form such a chain inside the whole buffer `[0, len)` (`chainB 0 · len`) —
the synthetic root's own payload span `[6, len)` does not contain its
children, which is the only correction. -/
theorem c3_amended (data : List Nat) :
    chainB 0 (parse data).children data.length = true ∧
    listOkB data (parse data).children = true := by
  obtain ⟨cs, hcs, hp⟩ := parse_children_eq data
  rw [hp]
  have h := (parse_invariant (data.length + 2)).2 data 0 data.length cs hcs
  simpa using h

/-- Shared helper for C4: the failure conditions make `parse_chunk`
produce no node, with a next offset not below the caller's. -/
theorem parse_chunk_fail (fuel : Nat) (data : List Nat) (off fend : Nat)
    (hfuel : 0 < fuel)
    (hbad : off + 6 > fend ∨ u32 data (off + 2) < 6 ∨
      off + u32 data (off + 2) > fend) :
    ∃ nxt, parse_chunk fuel data off fend = some (none, nxt) ∧ off ≤ nxt := by
  obtain ⟨f, rfl⟩ : ∃ f, fuel = f + 1 := ⟨fuel - 1, by omega⟩
  rw [parse_chunk_succ]
  unfold parseChunkBody
  by_cases h1 : off + 6 > fend
  · rw [if_pos h1]
    exact ⟨off, rfl, Nat.le_refl _⟩
  · rw [if_neg h1]
    by_cases h2 : off + 6 > data.length
    · rw [if_pos h2]
      exact ⟨fend, rfl, by omega⟩
    · rw [if_neg h2]
      have h3 : u32 data (off + 2) < 6 ∨ off + u32 data (off + 2) > fend := by tauto
      rw [if_pos h3]
      exact ⟨fend, rfl, by omega⟩

/-- Claim C4: when fewer than 6 bytes remain before the limit, or the
declared length is below 6, or the declared length overruns the limit,
`parse_chunk` produces no node (and does not raise — the only exception
source, the header read, is caught and also yields no node), and the child
loop run at that position stops extending the current scope's children,
returning no further children (already-parsed siblings and ancestors
stay in the tree because the loop only ever appends). -/
theorem c4_parse_chunk_failure (fuel fuel2 : Nat) (data : List Nat)
    (off fend : Nat) (hfuel : 0 < fuel) (hfuel2 : 2 ≤ fuel2)
    (hbad : off + 6 > fend ∨ u32 data (off + 2) < 6 ∨
      off + u32 data (off + 2) > fend) :
    (∃ nxt, parse_chunk fuel data off fend = some (none, nxt) ∧ off ≤ nxt) ∧
    parseChildren fuel2 data off fend = some ChunkList.nil := by
  refine ⟨parse_chunk_fail fuel data off fend hfuel hbad, ?_⟩
  obtain ⟨g, rfl⟩ : ∃ g, fuel2 = g + 1 := ⟨fuel2 - 1, by omega⟩
  rw [parseChildren_succ]
  unfold parseChildrenBody
  by_cases hr : off + 6 ≤ fend
  · rw [if_pos hr]
    obtain ⟨nxt, hn, -⟩ := parse_chunk_fail g data off fend (by omega) hbad
    rw [hn]
  · rw [if_neg hr]

/-- Witness for C4 at a concrete input (empty buffer, zero limit). -/
theorem c4_witness :
    (∃ nxt, parse_chunk 1 [] 0 0 = some (none, nxt) ∧ 0 ≤ nxt) ∧
    parseChildren 2 [] 0 0 = some ChunkList.nil :=
  c4_parse_chunk_failure 1 2 [] 0 0 (by decide) (by decide) (Or.inl (by decide))

/-- Claim C5, counterexample: the buffer holds two top-level leaves, an
unknown id 1 and a genuine id `0xFFFF`.  The id-1 occurrence is at the top
level of the file, yet its registry entry records the parent set
`[0xFFFF]` (the synthetic root's id) — not "none"/absent as the claim
states; and the genuine `0xFFFF` node, whose id is in neither name table,
is skipped entirely (no entry), not counted once. -/
theorem c5_counterexample :
    parse c5buf = ChunkNode.mk 0xFFFF 0 12
      (ChunkList.cons (ChunkNode.mk 1 0 6 ChunkList.nil)
        (ChunkList.cons (ChunkNode.mk 0xFFFF 6 6 ChunkList.nil) ChunkList.nil)) ∧
    populate_runtime_unknowns (parse c5buf) c5buf =
      [(1, ⟨1, [0xFFFF], [0], [[]], ["Empty"]⟩)] ∧
    assocGet (populate_runtime_unknowns (parse c5buf) c5buf) 0xFFFF = none := by
  refine ⟨rfl, by decide, by decide⟩

/-- Claim C5 (amended): the report walk visits every node whose id is not
the sentinel `0xFFFF` (the synthetic root — and any genuine node with the
sentinel id — is skipped), and for each id in neither chunk-name table the
final entry equals the fold of the per-occurrence update over that id's
occurrences in walk order; consequently `count` is the number of
occurrences, `sizes` and `guesses` carry one payload size / one heuristic
guess per occurrence in walk order, `samples` holds the first (up to 3)
payloads truncated to 128 bytes, and the parent set contains each
occurrence's immediate-parent id whenever that id is nonzero — in
particular `0xFFFF`, the synthetic root's id, for top-level occurrences
(never a "none" marker). -/
theorem c5_amended (root : ChunkNode) (data : List Nat) (id : Nat) :
    getE (populate_runtime_unknowns root data) id =
      entryFromOccs data (occsFor id none (ChunkList.cons root ChunkList.nil)) ∧
    (entryFromOccs data (occsFor id none (ChunkList.cons root ChunkList.nil))).count =
      (occsFor id none (ChunkList.cons root ChunkList.nil)).length ∧
    (entryFromOccs data (occsFor id none (ChunkList.cons root ChunkList.nil))).sizes =
      (occsFor id none (ChunkList.cons root ChunkList.nil)).map
        (fun pn => (payloadOf data pn.2).length) ∧
    (entryFromOccs data (occsFor id none (ChunkList.cons root ChunkList.nil))).guesses =
      (occsFor id none (ChunkList.cons root ChunkList.nil)).map
        (fun pn => guess_payload_type (payloadOf data pn.2)) ∧
    (entryFromOccs data (occsFor id none (ChunkList.cons root ChunkList.nil))).samples =
      ((occsFor id none (ChunkList.cons root ChunkList.nil)).map
        (fun pn => (payloadOf data pn.2).take 128)).take 3 ∧
    ((occsFor id none (ChunkList.cons root ChunkList.nil)).all fun pn =>
      match pn.1 with
      | some p => (p == 0) ||
          decide (p ∈ (entryFromOccs data
            (occsFor id none (ChunkList.cons root ChunkList.nil))).parents)
      | none => true) = true := by
  refine ⟨?_, ?_, ?_, ?_, ?_, ?_⟩
  · unfold populate_runtime_unknowns entryFromOccs
    rw [walk_char (csize (ChunkList.cons root ChunkList.nil)) _ (Nat.le_refl _)
      data none [] id]
    rfl
  · unfold entryFromOccs
    rw [foldl_count]
    simp [emptyEntry]
  · unfold entryFromOccs
    rw [foldl_sizes]
    rfl
  · unfold entryFromOccs
    rw [foldl_guesses]
    rfl
  · unfold entryFromOccs
    rw [foldl_samples]
    rfl
  · rw [List.all_eq_true]
    intro pn hpn
    rcases pn with ⟨pc?, n⟩
    rcases pc? with _ | p
    · rfl
    · by_cases hp0 : p = 0
      · simp [hp0]
      · have hmem := foldl_parents_mem data _ emptyEntry (some p, n) p hpn rfl hp0
        simp only [entryFromOccs]
        simp [hmem]

/-- Claim C6, counterexample: in a parsed material tree, an empty
shininess chunk (`0xA040`) whose material parent has a usable `0x0030`
int-percentage sibling still decodes to the fixed default — the
percentage family performs no sibling scan; likewise an empty
ambient-color chunk (`0xA010`) with a usable `0x0013` linear-float-color
sibling decodes to the color default, because the sibling scan accepts
only ids `0x0011`/`0x0010`, not the full child id set the claim names. -/
theorem c6_counterexample :
    parse c6buf1 = ChunkNode.mk 0xFFFF 0 20 (ChunkList.cons c6parent1 ChunkList.nil) ∧
    (ChunkList.toList c6parent1.children).find? (acceptPctChild c6buf1) =
      some (ChunkNode.mk 0x0030 12 8 ChunkList.nil) ∧
    GUI.ChunkDecoder.decode c6nodeA040 (some c6parent1)
      (payloadOf c6buf1 c6nodeA040) c6buf1 =
      Except.ok "Shininess: (not set) [default: 0%]" ∧
    parse c6buf2 = ChunkNode.mk 0xFFFF 0 30 (ChunkList.cons c6parent2 ChunkList.nil) ∧
    (ChunkList.toList c6parent2.children).find? (acceptColorChild c6buf2) =
      some (ChunkNode.mk 0x0013 12 18 ChunkList.nil) ∧
    GUI.ChunkDecoder.decode c6nodeA010 (some c6parent2)
      (payloadOf c6buf2 c6nodeA010) c6buf2 =
      Except.ok "Ambient Color: (not set) [default: (1.0, 1.0, 1.0)]" := by
  refine ⟨by decide, by decide, rfl, by decide, by decide, rfl⟩

/-- Claim C6 (amended): for every node of the resolved-value family
decoded with its parent present, the GUI decoder returns (without error) a
non-empty string computed as follows: the three color containers scan the
node's children in order for a value-bearing sub-id (`0x0010`–`0x0013`
with sufficient payload), then scan the siblings under the same parent for
ids `0x0011`/`0x0010` only, then fall back to the fixed default string;
the percentage family (`0xA040/0xA041/0xA050/0xA084`) scans children only
(`0x0030`/`0x0031`) and otherwise returns its fixed default — no sibling
scan. -/
theorem c6_amended (node p : ChunkNode) (data full : List Nat)
    (hfam : node.cid ∈ resolvedFamily) :
    GUI.ChunkDecoder.decode node (some p) data full =
      Except.ok (resolvedValueSpec node p full) ∧
    resolvedValueSpec node p full ≠ "" := by
  have hfam' : node.cid = 0xA010 ∨ node.cid = 0xA020 ∨ node.cid = 0xA030 ∨
      node.cid = 0xA040 ∨ node.cid = 0xA041 ∨ node.cid = 0xA050 ∨
      node.cid = 0xA084 := by
    simpa [resolvedFamily] using hfam
  by_cases hc : node.cid = 0xA010 ∨ node.cid = 0xA020 ∨ node.cid = 0xA030
  · rw [resolvedValueSpec, if_pos hc]
    exact ⟨decode_color node p data full hc, resolvedColorSpec_ne node p full⟩
  · have hp2 : node.cid = 0xA040 ∨ node.cid = 0xA041 ∨ node.cid = 0xA050 ∨
        node.cid = 0xA084 := by tauto
    rw [resolvedValueSpec, if_neg hc]
    exact ⟨decode_pct node p data full hp2, resolvedPctSpec_ne node full⟩

/-- Witness for C6 at a concrete family node (the ambient-color chunk of
the second counterexample tree). -/
theorem c6_witness :
    GUI.ChunkDecoder.decode c6nodeA010 (some c6parent2)
      (payloadOf c6buf2 c6nodeA010) c6buf2 =
      Except.ok (resolvedValueSpec c6nodeA010 c6parent2 c6buf2) ∧
    resolvedValueSpec c6nodeA010 c6parent2 c6buf2 ≠ "" :=
  c6_amended c6nodeA010 c6parent2 (payloadOf c6buf2 c6nodeA010) c6buf2 (by decide)

/-- Claim C7: for every successfully parsed named-object chunk
(id `0x4000`), the children form a well-bounded chain that starts only at
`skipName` — the position obtained by scanning from `payload_start` to the
first zero byte (or `payload_end`) and skipping one byte past the
terminator when found — so the name bytes produce no child; and on the
Scenario C buffer (`"Box01"`, zero byte, 6-byte leaf `0x4100`) the parser
produces exactly one child with id `0x4100` and `payload_size = 0`. -/
theorem c7_named_object (fuel : Nat) (data : List Nat) (off fend : Nat)
    (n : ChunkNode) (nxt : Nat)
    (hp : parse_chunk fuel data off fend = some (some n, nxt))
    (hn : n.cid = 0x4000) :
    chainB (skipName data n.payload_start n.payload_end) n.children
      n.payload_end = true ∧
    parse c7buf = ChunkNode.mk 0xFFFF 0 18 (ChunkList.cons c7namedNode ChunkList.nil) ∧
    (ChunkNode.mk 0x4100 12 6 ChunkList.nil).payload_size = 0 := by
  refine ⟨?_, by decide, rfl⟩
  obtain ⟨hst, hsz, hin, hend, hnxt, hchain, hlist⟩ :=
    (parse_invariant fuel).1 data off fend n nxt hp
  have hcs : childStart data n.cid (off + 6) (off + n.size) =
      skipName data (off + 6) (off + n.size) := by
    unfold childStart
    rw [if_pos hn]
  rw [hcs] at hchain
  unfold ChunkNode.payload_start ChunkNode.payload_end
  rw [hst]
  exact hchain

/-- Witness for C7 at the Scenario C buffer itself. -/
theorem c7_witness :
    chainB (skipName c7buf c7namedNode.payload_start c7namedNode.payload_end)
      c7namedNode.children c7namedNode.payload_end = true ∧
    parse c7buf = ChunkNode.mk 0xFFFF 0 18 (ChunkList.cons c7namedNode ChunkList.nil) ∧
    (ChunkNode.mk 0x4100 12 6 ChunkList.nil).payload_size = 0 :=
  c7_named_object 20 c7buf 0 18 c7namedNode 18 (by decide) (by decide)

/-- Claim C8: the parser terminates on every finite buffer — fuel
exceeding the remaining span always suffices for `parse_chunk` (and
span + 1 for the child loop), so the recursion bottoms out; and whenever
`parse_chunk` fails to produce a node, the offset it returns is at least
the offset it was given, so every repeat-until-exhausted loop either
strictly advances or stops. -/
theorem c8_termination (data : List Nat) (off fend pos pend fuel fuel2 : Nat)
    (h1 : fend - off < fuel) (h2 : pend - pos + 1 < fuel2) :
    (parse_chunk fuel data off fend).isSome = true ∧
    (parseChildren fuel2 data pos pend).isSome = true ∧
    (match parse_chunk fuel data off fend with
     | some (none, nxt) => off ≤ nxt
     | _ => True) := by
  refine ⟨(fuelEnough fuel).1 data off fend h1,
    (fuelEnough fuel2).2 data pos pend h2, ?_⟩
  rcases hr : parse_chunk fuel data off fend with _ | r
  · trivial
  · rcases r with ⟨c?, nxt⟩
    rcases c? with _ | c
    · exact parse_chunk_next_ge fuel data off fend nxt hr
    · trivial

/-- Witness for C8 at a concrete input. -/
theorem c8_witness :
    (parse_chunk 1 [] 0 0).isSome = true ∧
    (parseChildren 2 [] 0 0).isSome = true ∧
    (match parse_chunk 1 [] 0 0 with
     | some (none, nxt) => 0 ≤ nxt
     | _ => True) :=
  c8_termination [] 0 0 0 0 1 2 (by decide) (by decide)

/-- Claim C9, counterexample: on the 12-byte buffer the claim describes,
the child `0x0002` chunk of declared length 6 has an empty payload (a
length-6 chunk cannot carry the 16-bit value 3), so the GUI decoder's
version branch (which needs 2 payload bytes) is skipped and the output is
the generic fallback — not a version string, and containing no "3". -/
theorem c9_counterexample :
    parse c9bufA = ChunkNode.mk 0xFFFF 0 12
      (ChunkList.cons (ChunkNode.mk 0x4D4D 0 12
        (ChunkList.cons (ChunkNode.mk 2 6 6 ChunkList.nil) ChunkList.nil))
        ChunkList.nil) ∧
    payloadOf c9bufA (ChunkNode.mk 2 6 6 ChunkList.nil) = [] ∧
    GUI.ChunkDecoder.decode (ChunkNode.mk 2 6 6 ChunkList.nil)
      (some (ChunkNode.mk 0x4D4D 0 12
        (ChunkList.cons (ChunkNode.mk 2 6 6 ChunkList.nil) ChunkList.nil)))
      (payloadOf c9bufA (ChunkNode.mk 2 6 6 ChunkList.nil)) c9bufA =
      Except.ok "No decoder for 0x0002 (payload 0 bytes)" ∧
    ('3' ∈ "No decoder for 0x0002 (payload 0 bytes)".toList) = False := by
  refine ⟨rfl, rfl, rfl, by decide⟩

/-- Claim C9 (amended): with the lengths the described payload actually
requires — a 14-byte buffer, container `0x4D4D` of length 14 holding one
child `0x0002` of length 8 with payload `03 00` — parse yields a root
with exactly one child `0x4D4D` whose single child `0x0002` decodes to
"3DS Version: 3", a version string containing "3". -/
theorem c9_amended :
    parse c9bufB = ChunkNode.mk 0xFFFF 0 14
      (ChunkList.cons (ChunkNode.mk 0x4D4D 0 14
        (ChunkList.cons (ChunkNode.mk 2 6 8 ChunkList.nil) ChunkList.nil))
        ChunkList.nil) ∧
    payloadOf c9bufB (ChunkNode.mk 2 6 8 ChunkList.nil) = [3, 0] ∧
    GUI.ChunkDecoder.decode (ChunkNode.mk 2 6 8 ChunkList.nil)
      (some (ChunkNode.mk 0x4D4D 0 14
        (ChunkList.cons (ChunkNode.mk 2 6 8 ChunkList.nil) ChunkList.nil)))
      (payloadOf c9bufB (ChunkNode.mk 2 6 8 ChunkList.nil)) c9bufB =
      Except.ok "3DS Version: 3" ∧
    ('3' ∈ "3DS Version: 3".toList) = True := by
  refine ⟨rfl, rfl, rfl, by decide⟩

/-- Claim C10: `parse` always returns the synthetic root with sentinel id
`0xFFFF`, start 0, and size equal to the buffer length; every non-root
node in the tree has size at least 6; and a buffer with fewer than 6 bytes
yields a root with no children. -/
theorem c10_root_invariants (data : List Nat) :
    (parse data).cid = 0xFFFF ∧ (parse data).start = 0 ∧
    (parse data).size = data.length ∧
    sizesAllB (parse data).children = true ∧
    (data.length < 6 → (parse data).children = ChunkList.nil) := by
  obtain ⟨cs, hcs, hp⟩ := parse_children_eq data
  rw [hp]
  refine ⟨rfl, rfl, rfl, ?_, ?_⟩
  · exact listOkB_sizesAllB data cs
      ((parse_invariant (data.length + 2)).2 data 0 data.length cs hcs).2
  · intro hshort
    have h2 : data.length + 2 = (data.length + 1) + 1 := rfl
    rw [h2, parseChildren_succ] at hcs
    unfold parseChildrenBody at hcs
    rw [if_neg (by omega)] at hcs
    simp only [ChunkNode.children_mk]
    exact (Option.some.inj hcs).symm

/-- Witness for C10 at a concrete short buffer. -/
theorem c10_witness :
    (parse [0, 1]).cid = 0xFFFF ∧ (parse [0, 1]).start = 0 ∧
    (parse [0, 1]).size = ([0, 1] : List Nat).length ∧
    sizesAllB (parse [0, 1]).children = true ∧
    (parse [0, 1]).children = ChunkList.nil := by
  obtain ⟨a, b, c, d, e⟩ := c10_root_invariants [0, 1]
  exact ⟨a, b, c, d, e (by decide)⟩

end I3D

